import Mathlib

/-!
# Verification of `dramatiq-kombu-broker`

A shallow embedding of the queue-topology, broker state machine and consumer
protocol of the `dramatiq_kombu_broker` package, together with theorems
settling the specification claims.

Conventions of the embedding:
* Python `set[str]` is modelled as a duplicate-free `List String` with
  `setAdd` / `setDiscard` / membership mirroring `set.add` / `set.discard`.
* `datetime.timedelta` is represented by its total number of milliseconds
  (`Timedelta.ms`); `int(td.total_seconds() * 1000)` is `Timedelta.toMillis`.
* Exceptions are modelled by the `PyError` type and fallible operations return
  `Except PyError _`.
* External transport effects (the result of a physical `queue.declare()` after
  the bounded retry policy, the result of a `producer.publish(...)` attempt,
  the result of a raw kombu `ack`/`reject`, and the result of a buffered-
  delivery `pop`) are inputs supplied by an environment, since the wire
  protocol is an external collaborator of the package.
* Observable side effects (middleware notifications, physical declares,
  publish attempts, wire acknowledgments, completion-event signalling) are
  recorded in an event trace.
-/

namespace DKB

/-- Exceptions of the embedded code, one constructor per exception family the
source distinguishes. `channelError c` is `amqp.exceptions.ChannelError` with
`reply_code = c` (312 is "no route"); `preconditionFailed` carries `str(exc)`;
`connectionError` is the library `dramatiq.ConnectionError` produced by the
connection holder's reclassification; `connectionClosed` is
`dramatiq.errors.ConnectionClosed`; `delayTooLong` is `DelayTooLongError`
with its `delay`, `max_delay` and `queue_name` attributes. -/
inductive PyError where
  | preconditionFailed (errmsg : String)
  | notFound
  | channelError (reply_code : Int)
  | connectionError
  | connectionClosed
  | runtimeError (msg : String)
  | delayTooLong (delay : Int) (max_delay : Int) (queue_name : String)
  | other (tag : String)
deriving DecidableEq, Repr

/-- Errors the external transport (amqp/kombu) can raise into the embedded
code: the environment supplies these, and they are mapped into `PyError`
by `TransportError.toPyError`. The transport never raises the library's own
`DelayTooLongError` or `RuntimeError`, which is why those have no
constructor here. -/
inductive TransportError where
  | preconditionFailed (errmsg : String)
  | notFound
  | channelError (reply_code : Int)
  | connectionError
  | other (tag : String)
deriving DecidableEq, Repr

/-- Inject a transport exception into the embedded exception type. -/
def TransportError.toPyError : TransportError → PyError
  | .preconditionFailed errmsg => .preconditionFailed errmsg
  | .notFound => .notFound
  | .channelError reply_code => .channelError reply_code
  | .connectionError => .connectionError
  | .other tag => .other tag

/-- `datetime.timedelta`, represented by its total milliseconds. -/
structure Timedelta where
  ms : Int
deriving DecidableEq, Repr

/-- `int(td.total_seconds() * 1000)` for a whole-millisecond timedelta. -/
def Timedelta.toMillis (t : Timedelta) : Int := t.ms

/- ### dramatiq.common queue-name transforms (external dependency) -/

/-- Python `s.endswith(suffix)`. -/
def strEndsWith (s suffix : String) : Bool := suffix.data.isSuffixOf s.data

/-- Python `s[:-n]` for `n ≤ len(s)` (drop the last `n` characters). -/
def strDropRight (s : String) (n : Nat) : String := ⟨s.data.take (s.data.length - n)⟩

/-- `dramatiq.common.q_name`: strips a trailing `.DQ` or `.XQ` suffix. -/
def q_name (queue_name : String) : String :=
  if strEndsWith queue_name ".DQ" || strEndsWith queue_name ".XQ" then
    strDropRight queue_name 3
  else queue_name

/-- `dramatiq.common.dq_name`: the delay-queue name for a queue. -/
def dq_name (queue_name : String) : String :=
  if strEndsWith queue_name ".DQ" then queue_name
  else if strEndsWith queue_name ".XQ" then strDropRight queue_name 3 ++ ".DQ"
  else queue_name ++ ".DQ"

/-- `dramatiq.common.xq_name`: the dead-letter-queue name for a queue. -/
def xq_name (queue_name : String) : String :=
  if strEndsWith queue_name ".XQ" then queue_name
  else if strEndsWith queue_name ".DQ" then strDropRight queue_name 3 ++ ".XQ"
  else queue_name ++ ".XQ"

/- ### topology.py -/

/-- `topology.QueueName`: the `(canonical, delayed, dead_letter)` triple. -/
structure QueueName where
  canonical : String
  delayed : String
  dead_letter : String
deriving DecidableEq, Repr

/-- `topology.RabbitMQQueueArguments`: the per-queue native argument dict;
an absent key is `none`. -/
structure RabbitMQQueueArguments where
  x_message_ttl : Option Int := none
  x_dead_letter_exchange : Option String := none
  x_dead_letter_routing_key : Option String := none
  x_max_priority : Option Int := none
deriving DecidableEq, Repr, Inhabited

/-- `topology.dramatiq_rabbitmq_dlq_ttl` with the environment variable
`dramatiq_dead_message_ttl` unset: `timedelta(milliseconds=86400000 * 7)`,
i.e. seven days. -/
def dramatiq_rabbitmq_dlq_ttl : Timedelta := ⟨86400000 * 7⟩

/-- `topology.DefaultDramatiqTopology` dataclass fields, with the source's
defaults (logger omitted: pure configuration only). -/
structure DefaultDramatiqTopology where
  dlx_exchange_name : String := ""
  durable : Bool := true
  auto_delete : Bool := false
  max_priority : Option Int := none
  dead_letter_message_ttl : Option Timedelta := some dramatiq_rabbitmq_dlq_ttl
  max_delay_time : Option Timedelta := none
deriving DecidableEq, Repr

/-- `DefaultDramatiqTopology.get_canonical_queue_name`. -/
def get_canonical_queue_name (queue_name : String) : String := q_name queue_name

/-- `DefaultDramatiqTopology.get_dead_letter_queue_name`. -/
def get_dead_letter_queue_name (queue_name : String) : String := xq_name queue_name

/-- `DefaultDramatiqTopology.get_delay_queue_name`. -/
def get_delay_queue_name (queue_name : String) : String := dq_name queue_name

/-- `DefaultDramatiqTopology.get_queue_name_tuple`. -/
def get_queue_name_tuple (queue_name : String) : QueueName :=
  ⟨get_canonical_queue_name queue_name, get_delay_queue_name queue_name,
    get_dead_letter_queue_name queue_name⟩

/-- Python truthiness of the `max_priority : int | None` field
(`if self.max_priority:` — both `None` and `0` are falsy). -/
def maxPriorityTruthy : Option Int → Bool
  | none => false
  | some p => p != 0

/-- `DefaultDramatiqTopology._get_canonical_queue_arguments`. -/
def _get_canonical_queue_arguments (t : DefaultDramatiqTopology)
    (queue_name : String) (dlx : Bool := true) : RabbitMQQueueArguments :=
  let queue_arguments : RabbitMQQueueArguments := {}
  let queue_arguments :=
    if dlx then
      { queue_arguments with
        x_dead_letter_exchange := some t.dlx_exchange_name,
        x_dead_letter_routing_key := some (get_dead_letter_queue_name queue_name) }
    else queue_arguments
  if maxPriorityTruthy t.max_priority then
    { queue_arguments with x_max_priority := t.max_priority }
  else queue_arguments

/-- `DefaultDramatiqTopology._get_delay_queue_arguments`: canonical arguments
without DLX, DLX routing overridden to the canonical queue, and a failsafe
queue-level `x-message-ttl` when `max_delay_time` is configured. -/
def _get_delay_queue_arguments (t : DefaultDramatiqTopology)
    (queue_name : String) : RabbitMQQueueArguments :=
  let queue_arguments := _get_canonical_queue_arguments t queue_name false
  let canonical_queue_name := get_canonical_queue_name queue_name
  let queue_arguments :=
    { queue_arguments with
      x_dead_letter_exchange := some t.dlx_exchange_name,
      x_dead_letter_routing_key := some canonical_queue_name }
  match t.max_delay_time with
  | some td => { queue_arguments with x_message_ttl := some td.toMillis }
  | none => queue_arguments

/-- `DefaultDramatiqTopology._get_dead_letter_queue_arguments`. -/
def _get_dead_letter_queue_arguments (t : DefaultDramatiqTopology) :
    RabbitMQQueueArguments :=
  match t.dead_letter_message_ttl with
  | none => {}
  | some td => { x_message_ttl := some td.toMillis }

/-- Does `hay` contain `needle` as a contiguous run? -/
def hasInfix (needle : List Char) : List Char → Bool
  | [] => needle.isEmpty
  | a :: rest => needle.isPrefixOf (a :: rest) || hasInfix needle rest

/-- Python `marker in s` substring membership. -/
def strContains (s marker : String) : Bool := hasInfix marker.data s.data

/-- Python `s.lower()` (character-wise lowering). -/
def pyLower (s : String) : String := ⟨s.data.map Char.toLower⟩

/-- The `kombu.Queue` object `_declare_queue` builds and returns. -/
structure QueueSpec where
  name : String
  durable : Bool
  auto_delete : Bool
  queue_arguments : RabbitMQQueueArguments
deriving DecidableEq, Repr, Inhabited

/-- Outcome of the physical `queue.declare()` call, supplied by the
environment: `none` on success, `some e` when the transport raised `e`. -/
abbrev DeclareOutcome := Option TransportError

/-- `DefaultDramatiqTopology._declare_queue`: build the queue object, issue
the declare; a `PreconditionFailed` is suppressed (logged, queue returned)
only when `ignore_different_topology` is set and `str(exc).lower()` contains
the `inequivalent arg` marker; every other failure propagates. -/
def Topology_declare_queue (t : DefaultDramatiqTopology) (outcome : DeclareOutcome)
    (queue_name : String) (queue_arguments : RabbitMQQueueArguments)
    (ignore_different_topology : Bool := false) : Except PyError QueueSpec :=
  let queue : QueueSpec := ⟨queue_name, t.durable, t.auto_delete, queue_arguments⟩
  match outcome with
  | none => .ok queue
  | some (.preconditionFailed errmsg) =>
    if !ignore_different_topology then .error (.preconditionFailed errmsg)
    else
      let is_inequivalent_args := strContains (pyLower errmsg) "inequivalent arg"
      if !is_inequivalent_args then .error (.preconditionFailed errmsg)
      else .ok queue
  | some e => .error e.toPyError

/-- `DefaultDramatiqTopology.declare_canonical_queue`. -/
def declare_canonical_queue (t : DefaultDramatiqTopology) (outcome : DeclareOutcome)
    (queue_name : String) (ignore_different_topology : Bool := false) :
    Except PyError QueueSpec :=
  Topology_declare_queue t outcome queue_name
    (_get_canonical_queue_arguments t queue_name true) ignore_different_topology

/-- `DefaultDramatiqTopology.declare_delay_queue`. -/
def declare_delay_queue (t : DefaultDramatiqTopology) (outcome : DeclareOutcome)
    (queue_name : String) (ignore_different_topology : Bool := false) :
    Except PyError QueueSpec :=
  Topology_declare_queue t outcome queue_name
    (_get_delay_queue_arguments t queue_name) ignore_different_topology

/-- `DefaultDramatiqTopology.declare_dead_letter_queue`. -/
def declare_dead_letter_queue (t : DefaultDramatiqTopology) (outcome : DeclareOutcome)
    (queue_name : String) (ignore_different_topology : Bool := false) :
    Except PyError QueueSpec :=
  Topology_declare_queue t outcome queue_name
    (_get_dead_letter_queue_arguments t) ignore_different_topology

/- ### broker.py — state, set operations, events -/

/-- `set.add`, keeping the list duplicate-free. -/
def setAdd (s : List String) (x : String) : List String :=
  if x ∈ s then s else s ++ [x]

/-- `set.discard`. -/
def setDiscard (s : List String) (x : String) : List String :=
  s.filter (fun y => y ≠ x)

/-- The mutable per-broker state of `KombuBroker`: `self.queues`,
`self.queues_pending` and (from the dramatiq base `Broker`)
`self.delay_queues`. -/
structure BrokerState where
  queues : List String := []
  queues_pending : List String := []
  delay_queues : List String := []
deriving DecidableEq, Repr

/-- Which of the three physical queues a declare targets. -/
inductive DeclareKind where
  | canonical
  | delay
  | dead_letter
deriving DecidableEq, Repr

/-- Observable broker effects, in program order:
middleware notifications (`emit_before`/`emit_after`), physical
`queue.declare()` attempts and `producer.publish(...)` attempts.
`publish_attempt` carries the routing key and the per-message
`expiration` (the delay, when publishing to the delay queue). -/
inductive BEvent where
  | emit_before_declare_queue (queue_name : String)
  | emit_after_declare_queue (queue_name : String)
  | emit_after_declare_delay_queue (delayed_name : String)
  | physical_declare (kind : DeclareKind) (queue_name : String)
  | emit_before_enqueue (message_id : String) (delay : Option Int)
  | emit_after_enqueue (message_id : String) (delay : Option Int)
  | publish_attempt (routing_key : String) (expiration : Option Int)
deriving DecidableEq, Repr

/-- Result of a broker operation: the state at return (or at the point the
exception escaped), the event trace, and the returned value or exception. -/
structure BrokerOut (α : Type) where
  state : BrokerState
  events : List BEvent
  result : Except PyError α
deriving Repr

/-- Environment for broker operations: the post-retry outcome each physical
`queue.declare()` would produce (the bounded
`retry_connection_errors_over_time` wrapper and the channel acquisition are
collapsed into this single outcome, since both live in the external
transport layer). -/
abbrev DeclareEnv := DeclareKind → String → DeclareOutcome

/-- `KombuBroker._declare_queue` (canonical queue): declare through the
topology with `ignore_different_topology=True`; on success add the name to
`queues` and discard it from `queues_pending`. -/
def Broker_declare_queue (t : DefaultDramatiqTopology) (env : DeclareEnv)
    (s : BrokerState) (queue_name : String) : BrokerOut QueueSpec :=
  let queue_name := get_canonical_queue_name queue_name
  match declare_canonical_queue t (env .canonical queue_name) queue_name true with
  | .error e => ⟨s, [.physical_declare .canonical queue_name], .error e⟩
  | .ok q =>
    ⟨{ s with queues := setAdd s.queues queue_name,
              queues_pending := setDiscard s.queues_pending queue_name },
      [.physical_declare .canonical queue_name], .ok q⟩

/-- `KombuBroker._declare_dq_queue` (delay queue). -/
def Broker_declare_dq_queue (t : DefaultDramatiqTopology) (env : DeclareEnv)
    (s : BrokerState) (queue_name : String) : BrokerOut QueueSpec :=
  let queue_name := get_delay_queue_name queue_name
  match declare_delay_queue t (env .delay queue_name) queue_name true with
  | .error e => ⟨s, [.physical_declare .delay queue_name], .error e⟩
  | .ok q =>
    ⟨{ s with queues := setAdd s.queues queue_name,
              queues_pending := setDiscard s.queues_pending queue_name },
      [.physical_declare .delay queue_name], .ok q⟩

/-- `KombuBroker._declare_xq_queue` (dead-letter queue). -/
def Broker_declare_xq_queue (t : DefaultDramatiqTopology) (env : DeclareEnv)
    (s : BrokerState) (queue_name : String) : BrokerOut QueueSpec :=
  let queue_name := get_dead_letter_queue_name queue_name
  match declare_dead_letter_queue t (env .dead_letter queue_name) queue_name true with
  | .error e => ⟨s, [.physical_declare .dead_letter queue_name], .error e⟩
  | .ok q =>
    ⟨{ s with queues := setAdd s.queues queue_name,
              queues_pending := setDiscard s.queues_pending queue_name },
      [.physical_declare .dead_letter queue_name], .ok q⟩

/-- The `except dramatiq.errors.ConnectionError: raise ConnectionClosed`
reclassification performed by the `_ensure` wrapper inside
`KombuBroker._ensure_queue`. -/
def ensureReclassify : PyError → PyError
  | .connectionError => .connectionClosed
  | e => e

/-- `KombuBroker._ensure_queue`: only a canonical name may be ensured; if the
canonical name is pending, mark the delayed and dead-letter names pending
too; then declare — delay queue first, then dead-letter queue, then the
canonical queue — each only while its name is still pending, each through
the `_ensure` retry wrapper; the first failure aborts the rest. -/
def Broker_ensure_queue (t : DefaultDramatiqTopology) (env : DeclareEnv)
    (s : BrokerState) (queue_name : String) : BrokerOut Unit :=
  let q_names := get_queue_name_tuple queue_name
  if queue_name ≠ q_names.canonical then
    ⟨s, [], .error (.runtimeError "You can ensure only canonical queue name")⟩
  else
    let s :=
      if q_names.canonical ∈ s.queues_pending then
        { s with queues_pending :=
            setAdd (setAdd s.queues_pending q_names.delayed) q_names.dead_letter }
      else s
    let step1 : BrokerOut QueueSpec :=
      if q_names.delayed ∈ s.queues_pending then
        Broker_declare_dq_queue t env s q_names.canonical
      else ⟨s, [], .ok default⟩
    match step1.result with
    | .error e => ⟨step1.state, step1.events, .error (ensureReclassify e)⟩
    | .ok _ =>
      let s := step1.state
      let step2 : BrokerOut QueueSpec :=
        if q_names.dead_letter ∈ s.queues_pending then
          Broker_declare_xq_queue t env s q_names.canonical
        else ⟨s, [], .ok default⟩
      match step2.result with
      | .error e =>
        ⟨step2.state, step1.events ++ step2.events, .error (ensureReclassify e)⟩
      | .ok _ =>
        let s := step2.state
        let step3 : BrokerOut QueueSpec :=
          if q_names.canonical ∈ s.queues_pending then
            Broker_declare_queue t env s q_names.canonical
          else ⟨s, [], .ok default⟩
        match step3.result with
        | .error e =>
          ⟨step3.state, step1.events ++ step2.events ++ step3.events,
            .error (ensureReclassify e)⟩
        | .ok _ =>
          ⟨step3.state, step1.events ++ step2.events ++ step3.events, .ok ()⟩

/-- `KombuBroker.declare_queue(queue_name, ensure=...)`: on the first call
for a canonical name (`canonical_qname not in self.queues`, double-checked
under the declare lock) fire the before/after notifications, add the name to
`queues` and `queues_pending`, and record the delay queue; then, when
`ensure` is set, run `_ensure_queue` under the lock. -/
def declare_queue (t : DefaultDramatiqTopology) (env : DeclareEnv)
    (s : BrokerState) (queue_name : String) (ensure : Bool := false) :
    BrokerOut Unit :=
  let canonical_qname := get_canonical_queue_name queue_name
  let (s, events) :=
    if canonical_qname ∉ s.queues then
      let delayed_name := get_delay_queue_name queue_name
      ({ s with queues := setAdd s.queues canonical_qname,
                queues_pending := setAdd s.queues_pending canonical_qname,
                delay_queues := setAdd s.delay_queues delayed_name },
        [BEvent.emit_before_declare_queue queue_name,
         BEvent.emit_after_declare_queue queue_name,
         BEvent.emit_after_declare_delay_queue delayed_name])
    else (s, [])
  if ensure then
    let r := Broker_ensure_queue t env s canonical_qname
    ⟨r.state, events ++ r.events, r.result⟩
  else ⟨s, events, .ok ()⟩

/-- `KombuBroker.get_declared_queues`: `self.queues.copy()` — the returned
set is a fresh value and the broker state is untouched. -/
def get_declared_queues (s : BrokerState) : List String × BrokerState :=
  (s.queues, s)

/- ### broker.py — enqueue -/

/-- The logical `dramatiq.Message`: `queue_name`, id, and the options the
broker reads/writes (`broker_priority`, `eta`). -/
structure Message where
  queue_name : String
  message_id : String
  broker_priority : Option Int := none
  eta : Option Int := none
deriving DecidableEq, Repr

/-- Environment for `enqueue`: declare outcomes plus the outcome of the
`n`-th `producer.publish(...)` call inside `_enqueue_message` (`none` =
confirmed publish; publish-internal connection retries are collapsed into
this outcome). -/
structure EnqueueEnv where
  declare : DeclareEnv
  publish : Nat → Option TransportError

/-- `KombuBroker._enqueue_message(queue_name, message, delay=...)`: publish
with `routing_key = queue_name`, `mandatory=True`, and per-message
`expiration` set to the delay when delayed. `attempt` indexes the publish
call within the enclosing `enqueue`. -/
def Broker_enqueue_message (env : EnqueueEnv) (attempt : Nat)
    (queue_name : String) (_message : Message) (delay : Option Int) :
    List BEvent × Except PyError Unit :=
  ([.publish_attempt queue_name delay],
    match env.publish attempt with
    | none => .ok ()
    | some e => .error e.toPyError)

/-- The publish phase of `KombuBroker.enqueue` (the `emit_before("enqueue")`
through `emit_after("enqueue")` block): publish; on
`amqp.exceptions.ChannelError` with `reply_code == 312` (no-route), discard
the canonical name from `queues`, redeclare with `ensure=True`, and publish
exactly once more; any other channel error, and a failure of the single
retry, propagate. `events0` is the trace accumulated so far. -/
def enqueue_publish (t : DefaultDramatiqTopology) (env : EnqueueEnv)
    (s : BrokerState) (events0 : List BEvent) (queue_name : String)
    (message : Message) (delay : Option Int) : BrokerOut Message :=
  let events := events0 ++ [BEvent.emit_before_enqueue message.message_id delay]
  let (pev, pres) := Broker_enqueue_message env 0 queue_name message delay
  let events := events ++ pev
  match pres with
  | .ok _ =>
    ⟨s, events ++ [BEvent.emit_after_enqueue message.message_id delay], .ok message⟩
  | .error (.channelError reply_code) =>
    if reply_code ≠ 312 then ⟨s, events, .error (.channelError reply_code)⟩
    else
      let s := { s with
        queues := setDiscard s.queues (get_canonical_queue_name queue_name) }
      let r1 := declare_queue t env.declare s queue_name true
      let events := events ++ r1.events
      match r1.result with
      | .error e2 => ⟨r1.state, events, .error e2⟩
      | .ok _ =>
        let (pev2, pres2) := Broker_enqueue_message env 1 queue_name message delay
        let events := events ++ pev2
        match pres2 with
        | .ok _ =>
          ⟨r1.state,
            events ++ [BEvent.emit_after_enqueue message.message_id delay],
            .ok message⟩
        | .error e2 => ⟨r1.state, events, .error e2⟩
  | .error e => ⟨s, events, .error e⟩

/-- `KombuBroker.enqueue(message, delay=...)`:
1. `declare_queue(queue_name, ensure=True)`;
2. when delayed and `topology.max_delay_time` is set, fail fast with
   `DelayTooLongError(delay, max_delay_ms, queue_name)` if the delay exceeds
   the cap in milliseconds;
3. when delayed, retarget the message to the delay queue and stamp
   `eta = current_millis() + delay` (`now` is `current_millis()`);
4. run the publish phase (`enqueue_publish`) with its single no-route
   redeclare-and-retry cycle. -/
def enqueue (t : DefaultDramatiqTopology) (env : EnqueueEnv) (now : Int)
    (s : BrokerState) (message : Message) (delay : Option Int := none) :
    BrokerOut Message :=
  let queue_name := message.queue_name
  let r0 := declare_queue t env.declare s queue_name true
  match r0.result with
  | .error e => ⟨r0.state, r0.events, .error e⟩
  | .ok _ =>
    let s := r0.state
    let validated : Except PyError (String × Message) :=
      match delay with
      | none => .ok (queue_name, message)
      | some d =>
        let afterCheck : Except PyError Unit :=
          match t.max_delay_time with
          | some mdt =>
            let max_delay_ms := mdt.toMillis
            if d > max_delay_ms then
              .error (.delayTooLong d max_delay_ms queue_name)
            else .ok ()
          | none => .ok ()
        match afterCheck with
        | .error e => .error e
        | .ok _ =>
          let queue_name := get_delay_queue_name queue_name
          let message_eta := now + d
          .ok (queue_name,
            { message with queue_name := queue_name, eta := some message_eta })
    match validated with
    | .error e => ⟨s, r0.events, .error e⟩
    | .ok (queue_name, message) =>
      enqueue_publish t env s r0.events queue_name message delay


/- ### consumer.py — MessageProxy -/

/-- `consumer.MessageProxy`: wraps one kombu delivery plus the decoded
dramatiq message. `failed` is the dramatiq-side failure flag
(`self.failed` of the base `dramatiq.MessageProxy`); `kombu_acknowledged`
is `self._kombu_message.acknowledged`. -/
structure MessageProxy where
  message_id : Nat
  failed : Bool := false
  kombu_acknowledged : Bool := false
  last_acknowledge_error : Option TransportError := none
deriving DecidableEq, Repr

/-- A wire-level acknowledgment operation on the channel. -/
inductive WireOp where
  | basic_ack (message_id : Nat)
  | basic_reject (message_id : Nat) (requeue : Bool)
deriving DecidableEq, Repr

/-- `MessageProxy.ack`: if the underlying delivery is already acknowledged,
return `not failed` with no wire operation; otherwise call the raw kombu
`ack` (its outcome supplied by the environment: `none` = success) — on
failure store the exception in `last_acknowledge_error` and re-raise, on
success return `True`. -/
def MessageProxy.ack (m : MessageProxy) (outcome : Option TransportError) :
    MessageProxy × List WireOp × Except PyError Bool :=
  if m.kombu_acknowledged then
    if m.failed then (m, [], .ok false)
    else (m, [], .ok true)
  else
    match outcome with
    | some exc =>
      ({ m with last_acknowledge_error := some exc },
        [.basic_ack m.message_id], .error exc.toPyError)
    | none =>
      ({ m with kombu_acknowledged := true }, [.basic_ack m.message_id], .ok true)

/-- `MessageProxy.nack`: if the underlying delivery is already acknowledged,
return `failed` with no wire operation; otherwise call the raw kombu
`reject(requeue=...)` — on failure store the exception in
`last_acknowledge_error` and re-raise, on success return `True`. -/
def MessageProxy.nack (m : MessageProxy) (outcome : Option TransportError)
    (requeue : Bool := false) : MessageProxy × List WireOp × Except PyError Bool :=
  if m.kombu_acknowledged then
    if !m.failed then (m, [], .ok false)
    else (m, [], .ok true)
  else
    match outcome with
    | some exc =>
      ({ m with last_acknowledge_error := some exc },
        [.basic_reject m.message_id requeue], .error exc.toPyError)
    | none =>
      ({ m with kombu_acknowledged := true },
        [.basic_reject m.message_id requeue], .ok true)

/- ### consumer.py — DramatiqConsumer pull cycle -/

/-- One deferred acknowledgment action queued by a non-owner thread:
the message and the optional completion `threading.Event` (identified by a
number so the trace can record its signalling). -/
structure DeferredAction where
  message_id : Nat
  done_event : Option Nat
deriving DecidableEq, Repr

/-- The consumer state the pull cycle reads and writes: the two
`collections.deque` objects of deferred acknowledgments. -/
structure ConsumerState where
  ack_queue : List DeferredAction := []
  nack_queue : List DeferredAction := []
deriving DecidableEq, Repr

/-- Observable consumer effects, in program order. -/
inductive CEvent where
  | ack_message (message_id : Nat)
  | nack_message (message_id : Nat)
  | event_set (event_id : Nat)
  | reader_pop
  | reject_raw_delivery
deriving DecidableEq, Repr

/-- `DramatiqConsumer._process_queued_ack_events`: pop the ack deque from the
left until empty; for each entry ack the message (errors logged, swallowed)
and then signal its completion event when present. -/
def _process_queued_ack_events : List DeferredAction → List CEvent
  | [] => []
  | a :: rest =>
    CEvent.ack_message a.message_id ::
      ((match a.done_event with
        | some e => [CEvent.event_set e]
        | none => []) ++ _process_queued_ack_events rest)

/-- `DramatiqConsumer._process_queued_nack_events`, symmetric to the ack
drain. -/
def _process_queued_nack_events : List DeferredAction → List CEvent
  | [] => []
  | a :: rest =>
    CEvent.nack_message a.message_id ::
      ((match a.done_event with
        | some e => [CEvent.event_set e]
        | none => []) ++ _process_queued_nack_events rest)

/-- What `self._reader.pop(timeout=...)` produced, supplied by the
environment: no buffered delivery, a delivery with an (opaque) body, or a
recoverable transport error. -/
inductive PopOutcome where
  | empty
  | delivery (body : String)
  | transportError
deriving DecidableEq, Repr

/-- `DramatiqConsumer.__next__`: drain the deferred ack queue, then the
deferred nack queue, then pop one delivery. A transport error around the
pop is reclassified into `dramatiq.ConnectionError`. On a delivery, decode
its body (`decode body = none` models `dramatiq.DecodeError`): a decode
failure rejects the raw delivery (errors logged) and returns `None`; on
success the decoded message id is wrapped in a `MessageProxy`. -/
def Consumer_next (decode : String → Option Nat) (pop : PopOutcome)
    (c : ConsumerState) :
    ConsumerState × List CEvent × Except PyError (Option MessageProxy) :=
  let drained := _process_queued_ack_events c.ack_queue ++
    _process_queued_nack_events c.nack_queue
  let c : ConsumerState := { ack_queue := [], nack_queue := [] }
  match pop with
  | .transportError => (c, drained ++ [.reader_pop], .error .connectionError)
  | .empty => (c, drained ++ [.reader_pop], .ok none)
  | .delivery body =>
    match decode body with
    | none => (c, drained ++ [.reader_pop, .reject_raw_delivery], .ok none)
    | some did =>
      (c, drained ++ [.reader_pop], .ok (some { message_id := did }))

/- ### auxiliary definitions used by the statements -/

/-- Discriminator: is this error a `DelayTooLongError`? -/
def PyError.isDelayTooLong : PyError → Bool
  | .delayTooLong _ _ _ => true
  | _ => false

/-- Discriminator: is this transport error `amqp.exceptions.PreconditionFailed`? -/
def TransportError.isPreconditionFailed : TransportError → Bool
  | .preconditionFailed _ => true
  | _ => false

/-- Is this broker event a `producer.publish(...)` attempt? -/
def isPublishAttempt : BEvent → Bool
  | .publish_attempt _ _ => true
  | _ => false

/-- Number of `producer.publish(...)` attempts recorded in a trace. -/
def countPublish (l : List BEvent) : Nat := (l.filter isPublishAttempt).length

/-- The message id acked by a consumer event, when it is an ack. -/
def ackIdOf : CEvent → Option Nat
  | .ack_message i => some i
  | _ => none

/-- The message id nacked by a consumer event, when it is a nack. -/
def nackIdOf : CEvent → Option Nat
  | .nack_message i => some i
  | _ => none

/-- Non-degeneracy of a logical queue name `n`: it is its own canonical form
and the three derived physical names behave as the plain suffix transform
and are pairwise distinct. Any ordinary actor queue name (one not ending in
the reserved `.DQ` / `.XQ` suffixes) satisfies this; the properties are
decidable and checked by `decide` at concrete names. -/
abbrev GoodName (n : String) : Prop :=
  q_name n = n ∧ dq_name n = n ++ ".DQ" ∧ xq_name n = n ++ ".XQ" ∧
  q_name (n ++ ".DQ") = n ∧ dq_name (n ++ ".DQ") = n ++ ".DQ" ∧
  xq_name (n ++ ".DQ") = n ++ ".XQ" ∧
  n ≠ n ++ ".DQ" ∧ n ≠ n ++ ".XQ" ∧ n ++ ".DQ" ≠ n ++ ".XQ"

/- ### basic lemmas about the set model and traces -/

theorem mem_setAdd {s : List String} {x y : String} :
    y ∈ setAdd s x ↔ y ∈ s ∨ y = x := by
  simp [setAdd]
  split
  · rename_i h
    constructor
    · exact Or.inl
    · rintro (hy | rfl) <;> [exact hy; exact h]
  · simp

theorem mem_setDiscard {s : List String} {x y : String} :
    y ∈ setDiscard s x ↔ y ∈ s ∧ y ≠ x := by
  simp [setDiscard]

theorem countPublish_append (a b : List BEvent) :
    countPublish (a ++ b) = countPublish a + countPublish b := by
  simp [countPublish, List.filter_append]

theorem countPublish_physical (k : DeclareKind) (n : String) :
    countPublish [BEvent.physical_declare k n] = 0 := rfl

/- ### C8 — default dead-letter TTL -/

/-- The field defaults of `DLXRoutingTopology` (identical to
`DefaultDramatiqTopology` except `dead_letter_message_ttl = None`: "no ttl
on dlx, it's a final point for message"). -/
def DLXRoutingTopology_defaults : DefaultDramatiqTopology :=
  { dead_letter_message_ttl := none }

/-- C8 (counterexample): with a completely unconfigured
`DefaultDramatiqTopology` (and the `dramatiq_dead_message_ttl` environment
variable unset), the dead-letter queue arguments DO carry an
`x-message-ttl` entry of `86400000 * 7` ms (seven days) — the claim that
they contain no such entry is false. -/
theorem dead_letter_ttl_counterexample :
    (_get_dead_letter_queue_arguments ({} : DefaultDramatiqTopology)).x_message_ttl
      = some (86400000 * 7) := by decide

/-- C8 (amended): the default topology declares the dead-letter queue with a
message TTL defaulting to seven days (`dramatiq_rabbitmq_dlq_ttl`); the
`x-message-ttl` entry is absent exactly when `dead_letter_message_ttl` is
explicitly `None` (as in `DLXRoutingTopology`), and equals the configured
timedelta in milliseconds when one is set. -/
theorem dead_letter_ttl_amended :
    ((_get_dead_letter_queue_arguments ({} : DefaultDramatiqTopology)).x_message_ttl
        = some dramatiq_rabbitmq_dlq_ttl.toMillis) ∧
    (∀ t : DefaultDramatiqTopology, t.dead_letter_message_ttl = none →
        _get_dead_letter_queue_arguments t = {}) ∧
    (∀ (t : DefaultDramatiqTopology) (td : Timedelta),
        t.dead_letter_message_ttl = some td →
        (_get_dead_letter_queue_arguments t).x_message_ttl = some td.toMillis) := by
  refine ⟨by decide, ?_, ?_⟩
  · intro t ht
    simp [_get_dead_letter_queue_arguments, ht]
  · intro t td ht
    simp [_get_dead_letter_queue_arguments, ht]

/-- C8 witness: the amended theorem applied to the `DLXRoutingTopology`
defaults (no TTL) and to the default seven-day TTL. -/
theorem dead_letter_ttl_amended_witness :
    _get_dead_letter_queue_arguments DLXRoutingTopology_defaults = {} ∧
    (_get_dead_letter_queue_arguments ({} : DefaultDramatiqTopology)).x_message_ttl
      = some 604800000 :=
  ⟨dead_letter_ttl_amended.2.1 DLXRoutingTopology_defaults rfl,
    by rw [dead_letter_ttl_amended.2.2 ({} : DefaultDramatiqTopology)
      dramatiq_rabbitmq_dlq_ttl rfl]; decide⟩

/- ### C4 — declare-time PreconditionFailed suppression -/

/-- C4: for every queue declaration (the canonical, delay and dead-letter
declare entry points all funnel into `_declare_queue`), a declare-time
`PreconditionFailed` is suppressed — the queue object still returned — iff
`ignore_different_topology` is set AND the lowered error message contains
the `inequivalent arg` marker; otherwise it propagates unchanged; and any
non-`PreconditionFailed` declare failure always propagates unchanged. -/
theorem declare_precondition_suppression :
    (∀ (t : DefaultDramatiqTopology) (o : DeclareOutcome) (qn : String)
        (flag : Bool),
        declare_canonical_queue t o qn flag
            = Topology_declare_queue t o qn
                (_get_canonical_queue_arguments t qn true) flag ∧
        declare_delay_queue t o qn flag
            = Topology_declare_queue t o qn (_get_delay_queue_arguments t qn) flag ∧
        declare_dead_letter_queue t o qn flag
            = Topology_declare_queue t o qn (_get_dead_letter_queue_arguments t) flag) ∧
    (∀ (t : DefaultDramatiqTopology) (errmsg qn : String)
        (qa : RabbitMQQueueArguments) (flag : Bool),
        Topology_declare_queue t (some (.preconditionFailed errmsg)) qn qa flag
            = .ok ⟨qn, t.durable, t.auto_delete, qa⟩
          ↔ flag = true ∧ strContains (pyLower errmsg) "inequivalent arg" = true) ∧
    (∀ (t : DefaultDramatiqTopology) (errmsg qn : String)
        (qa : RabbitMQQueueArguments) (flag : Bool),
        ¬(flag = true ∧ strContains (pyLower errmsg) "inequivalent arg" = true) →
        Topology_declare_queue t (some (.preconditionFailed errmsg)) qn qa flag
          = .error (.preconditionFailed errmsg)) ∧
    (∀ (t : DefaultDramatiqTopology) (e : TransportError) (qn : String)
        (qa : RabbitMQQueueArguments) (flag : Bool),
        e.isPreconditionFailed = false →
        Topology_declare_queue t (some e) qn qa flag = .error e.toPyError) := by
  refine ⟨fun t o qn flag => ⟨rfl, rfl, rfl⟩, ?_, ?_, ?_⟩
  · intro t errmsg qn qa flag
    cases flag
    · simp [Topology_declare_queue]
    · simp only [Topology_declare_queue, Bool.not_true, Bool.false_eq_true,
        if_false, true_and]
      cases h : strContains (pyLower errmsg) "inequivalent arg" <;> simp [h]
  · intro t errmsg qn qa flag h
    cases flag <;> simp_all [Topology_declare_queue]
  · intro t e qn qa flag he
    cases e <;> simp_all [Topology_declare_queue, TransportError.isPreconditionFailed]

/-- C4 witness: a queue-exists-with-inequivalent-arguments conflict is
swallowed under the opt-in flag; the same conflict propagates without the
flag; a marker-free `PreconditionFailed` propagates even with the flag; and
a `NotFound` failure propagates with the flag set. -/
theorem declare_precondition_suppression_witness :
    Topology_declare_queue {} (some (.preconditionFailed
        "Queue.declare: (406) PRECONDITION_FAILED - inequivalent arg 'x-message-ttl'"))
        "q" {} true
      = .ok ⟨"q", true, false, {}⟩ ∧
    Topology_declare_queue {} (some (.preconditionFailed
        "Queue.declare: (406) PRECONDITION_FAILED - inequivalent arg 'x-message-ttl'"))
        "q" {} false
      = .error (.preconditionFailed
        "Queue.declare: (406) PRECONDITION_FAILED - inequivalent arg 'x-message-ttl'") ∧
    Topology_declare_queue {} (some (.preconditionFailed "some other precondition"))
        "q" {} true
      = .error (.preconditionFailed "some other precondition") ∧
    Topology_declare_queue {} (some .notFound) "q" {} true = .error .notFound := by
  refine ⟨?_, ?_, ?_, ?_⟩
  · exact (declare_precondition_suppression.2.1 {} _ "q" {} true).mpr
      ⟨rfl, by decide⟩
  · exact declare_precondition_suppression.2.2.1 {} _ "q" {} false (by decide)
  · exact declare_precondition_suppression.2.2.1 {} _ "q" {} true (by decide)
  · exact declare_precondition_suppression.2.2.2 {} .notFound "q" {} true rfl

/- ### C5 — MessageProxy ack/nack idempotence -/

/-- C5: on an already-acknowledged delivery, `ack()` performs no wire
operation, leaves the proxy untouched and returns `not failed`; `nack()`
likewise returns `failed`; neither raises. On a not-yet-acknowledged
delivery whose underlying kombu `ack`/`reject` fails, the exception is
stored in `last_acknowledge_error` and re-raised, never swallowed. -/
theorem message_proxy_idempotent_acknowledge :
    (∀ (m : MessageProxy) (outcome : Option TransportError),
        m.kombu_acknowledged = true →
        m.ack outcome = (m, [], .ok (!m.failed))) ∧
    (∀ (m : MessageProxy) (outcome : Option TransportError) (requeue : Bool),
        m.kombu_acknowledged = true →
        m.nack outcome requeue = (m, [], .ok m.failed)) ∧
    (∀ (m : MessageProxy) (exc : TransportError),
        m.kombu_acknowledged = false →
        m.ack (some exc)
          = ({ m with last_acknowledge_error := some exc },
              [.basic_ack m.message_id], .error exc.toPyError)) ∧
    (∀ (m : MessageProxy) (exc : TransportError) (requeue : Bool),
        m.kombu_acknowledged = false →
        m.nack (some exc) requeue
          = ({ m with last_acknowledge_error := some exc },
              [.basic_reject m.message_id requeue], .error exc.toPyError)) := by
  refine ⟨?_, ?_, ?_, ?_⟩
  · intro m outcome h
    cases hf : m.failed <;> simp [MessageProxy.ack, h, hf]
  · intro m outcome requeue h
    cases hf : m.failed <;> simp [MessageProxy.nack, h, hf]
  · intro m exc h
    simp [MessageProxy.ack, h]
  · intro m exc requeue h
    simp [MessageProxy.nack, h]

/-- C5 witness: a worked pair of repeat calls on an acknowledged delivery
(no wire operation, boolean result) and a failing first ack (error stored
and re-raised). -/
theorem message_proxy_idempotent_acknowledge_witness :
    MessageProxy.ack ⟨7, false, true, none⟩ none = (⟨7, false, true, none⟩, [], .ok true) ∧
    MessageProxy.nack ⟨7, false, true, none⟩ none false
      = (⟨7, false, true, none⟩, [], .ok false) ∧
    MessageProxy.ack ⟨7, true, true, none⟩ none = (⟨7, true, true, none⟩, [], .ok false) ∧
    MessageProxy.nack ⟨7, true, true, none⟩ none false
      = (⟨7, true, true, none⟩, [], .ok true) ∧
    MessageProxy.ack ⟨7, false, false, none⟩ (some .connectionError)
      = (⟨7, false, false, some .connectionError⟩, [.basic_ack 7], .error .connectionError) := by
  refine ⟨?_, ?_, ?_, ?_, ?_⟩
  · exact message_proxy_idempotent_acknowledge.1 ⟨7, false, true, none⟩ none rfl
  · exact message_proxy_idempotent_acknowledge.2.1 ⟨7, false, true, none⟩ none false rfl
  · exact message_proxy_idempotent_acknowledge.1 ⟨7, true, true, none⟩ none rfl
  · exact message_proxy_idempotent_acknowledge.2.1 ⟨7, true, true, none⟩ none false rfl
  · exact message_proxy_idempotent_acknowledge.2.2.1 ⟨7, false, false, none⟩
      .connectionError rfl

/- ### C7 — decode-failure isolation in the pull loop -/

/-- C7: when a pull obtains a delivery whose body fails to decode, the pull
rejects the raw delivery (trace ends with the rejection), returns `None`
instead of a message, and raises nothing. -/
theorem consumer_decode_failure_isolation :
    ∀ (decode : String → Option Nat) (body : String) (c : ConsumerState),
      decode body = none →
      (Consumer_next decode (.delivery body) c).2.2 = .ok none ∧
      (Consumer_next decode (.delivery body) c).2.1
        = _process_queued_ack_events c.ack_queue
            ++ _process_queued_nack_events c.nack_queue
            ++ [.reader_pop, .reject_raw_delivery] := by
  intro decode body c h
  simp [Consumer_next, h]

/-- C7 witness: a malformed body under a decoder that fails on it. -/
theorem consumer_decode_failure_isolation_witness :
    (Consumer_next (fun _ => none) (.delivery "garbage") ⟨[], []⟩).2.2 = .ok none ∧
    (Consumer_next (fun _ => none) (.delivery "garbage") ⟨[], []⟩).2.1
      = [.reader_pop, .reject_raw_delivery] := by
  have h := consumer_decode_failure_isolation (fun _ => none) "garbage" ⟨[], []⟩ rfl
  exact ⟨h.1, by rw [h.2]; rfl⟩

/- ### C9 — deferred ack/nack draining order -/

theorem process_ack_ids (q : List DeferredAction) :
    (_process_queued_ack_events q).filterMap ackIdOf
      = q.map DeferredAction.message_id := by
  induction q with
  | nil => rfl
  | cons a rest ih =>
    cases a with
    | mk mid ev =>
      cases ev <;> simp [_process_queued_ack_events, ackIdOf, ih]

theorem process_nack_ids (q : List DeferredAction) :
    (_process_queued_nack_events q).filterMap nackIdOf
      = q.map DeferredAction.message_id := by
  induction q with
  | nil => rfl
  | cons a rest ih =>
    cases a with
    | mk mid ev =>
      cases ev <;> simp [_process_queued_nack_events, nackIdOf, ih]

theorem process_ack_signals (q : List DeferredAction) :
    ∀ a ∈ q, ∀ e, a.done_event = some e →
      CEvent.event_set e ∈ _process_queued_ack_events q := by
  induction q with
  | nil => intro a ha; simp at ha
  | cons b rest ih =>
    intro a ha e he
    rcases List.mem_cons.mp ha with rfl | hmem
    · simp [_process_queued_ack_events, he]
    · simp only [_process_queued_ack_events, List.mem_cons, List.mem_append]
      right
      rcases List.mem_append.mp (List.mem_append_right _ (ih a hmem e he)) with h | h
      · exact Or.inl h
      · exact Or.inr h

theorem process_nack_signals (q : List DeferredAction) :
    ∀ a ∈ q, ∀ e, a.done_event = some e →
      CEvent.event_set e ∈ _process_queued_nack_events q := by
  induction q with
  | nil => intro a ha; simp at ha
  | cons b rest ih =>
    intro a ha e he
    rcases List.mem_cons.mp ha with rfl | hmem
    · simp [_process_queued_nack_events, he]
    · simp only [_process_queued_nack_events, List.mem_cons, List.mem_append]
      right
      rcases List.mem_append.mp (List.mem_append_right _ (ih a hmem e he)) with h | h
      · exact Or.inl h
      · exact Or.inr h

/-- C9: every pull cycle first drains the deferred-ack queue (acks recorded
in submitted FIFO order, completion events signalled when present), then
the deferred-nack queue likewise, and only then — with both queues now
empty — reads a new delivery (`reader_pop` comes strictly after every drain
event). -/
theorem consumer_pull_cycle_order :
    ∀ (decode : String → Option Nat) (pop : PopOutcome) (c : ConsumerState),
      (Consumer_next decode pop c).1 = ⟨[], []⟩ ∧
      (∃ rest, (Consumer_next decode pop c).2.1
          = _process_queued_ack_events c.ack_queue
              ++ _process_queued_nack_events c.nack_queue
              ++ CEvent.reader_pop :: rest) ∧
      ((_process_queued_ack_events c.ack_queue).filterMap ackIdOf
          = c.ack_queue.map DeferredAction.message_id) ∧
      ((_process_queued_nack_events c.nack_queue).filterMap nackIdOf
          = c.nack_queue.map DeferredAction.message_id) ∧
      (∀ a ∈ c.ack_queue, ∀ e, a.done_event = some e →
          CEvent.event_set e ∈ _process_queued_ack_events c.ack_queue) ∧
      (∀ a ∈ c.nack_queue, ∀ e, a.done_event = some e →
          CEvent.event_set e ∈ _process_queued_nack_events c.nack_queue) := by
  intro decode pop c
  refine ⟨?_, ?_, process_ack_ids _, process_nack_ids _,
    process_ack_signals _, process_nack_signals _⟩
  · cases pop with
    | empty => rfl
    | transportError => rfl
    | delivery body =>
      simp only [Consumer_next]
      cases decode body <;> rfl
  · cases pop with
    | empty => exact ⟨[], by simp [Consumer_next]⟩
    | transportError => exact ⟨[], by simp [Consumer_next]⟩
    | delivery body =>
      cases h : decode body with
      | none => exact ⟨[.reject_raw_delivery], by simp [Consumer_next, h]⟩
      | some d => exact ⟨[], by simp [Consumer_next, h]⟩

/-- C9 witness: a cycle with two queued acks (one with a completion event)
and one queued nack, showing drain order, FIFO ids, signalling, and the
emptied queues. -/
theorem consumer_pull_cycle_order_witness :
    (Consumer_next (fun _ => some 1) .empty
        ⟨[⟨10, some 5⟩, ⟨11, none⟩], [⟨12, some 6⟩]⟩).1 = ⟨[], []⟩ ∧
    (∃ rest, (Consumer_next (fun _ => some 1) .empty
        ⟨[⟨10, some 5⟩, ⟨11, none⟩], [⟨12, some 6⟩]⟩).2.1
      = _process_queued_ack_events [⟨10, some 5⟩, ⟨11, none⟩]
          ++ _process_queued_nack_events [⟨12, some 6⟩]
          ++ CEvent.reader_pop :: rest) ∧
    CEvent.event_set 5 ∈ _process_queued_ack_events [⟨10, some 5⟩, ⟨11, none⟩] := by
  have h := consumer_pull_cycle_order (fun _ => some 1) .empty
    ⟨[⟨10, some 5⟩, ⟨11, none⟩], [⟨12, some 6⟩]⟩
  exact ⟨h.1, h.2.1, h.2.2.2.2.1 ⟨10, some 5⟩ (by decide) 5 rfl⟩

/- ### C10 — get_declared_queues returns a fresh copy -/

/-- C10: `get_declared_queues` leaves every broker field unchanged and
returns (a copy of) the declared-name set; mutating the returned copy
(here: adding a new name) yields a set different from the broker's
still-unchanged internal one, so the mutation is invisible to the broker. -/
theorem get_declared_queues_copy :
    ∀ (s : BrokerState) (x : String),
      (get_declared_queues s).2 = s ∧
      (get_declared_queues s).1 = s.queues ∧
      (x ∉ s.queues →
        setAdd (get_declared_queues s).1 x ≠ (get_declared_queues s).2.queues) := by
  intro s x
  refine ⟨rfl, rfl, fun hx => ?_⟩
  simp only [get_declared_queues, setAdd, if_neg hx]
  intro h
  have := congrArg List.length h
  simp at this

/-- C10 witness: a broker that declared `q`; adding `p` to the returned copy
does not show up in the broker's set. -/
theorem get_declared_queues_copy_witness :
    (get_declared_queues ⟨["q"], [], []⟩).2 = ⟨["q"], [], []⟩ ∧
    (get_declared_queues ⟨["q"], [], []⟩).1 = ["q"] ∧
    setAdd (get_declared_queues ⟨["q"], [], []⟩).1 "p"
      ≠ (get_declared_queues ⟨["q"], [], []⟩).2.queues := by
  have h := get_declared_queues_copy ⟨["q"], [], []⟩ "p"
  exact ⟨h.1, h.2.1, h.2.2 (by decide)⟩

/- ### lemmas about the physical declare helpers -/

theorem Broker_declare_dq_queue_ok (t : DefaultDramatiqTopology)
    (env : DeclareEnv) (s : BrokerState) (q : String)
    (h : env .delay (get_delay_queue_name q) = none) :
    Broker_declare_dq_queue t env s q
      = ⟨{ s with queues := setAdd s.queues (get_delay_queue_name q),
                  queues_pending := setDiscard s.queues_pending (get_delay_queue_name q) },
          [.physical_declare .delay (get_delay_queue_name q)],
          .ok ⟨get_delay_queue_name q, t.durable, t.auto_delete,
            _get_delay_queue_arguments t (get_delay_queue_name q)⟩⟩ := by
  simp [Broker_declare_dq_queue, declare_delay_queue, Topology_declare_queue, h]

theorem Broker_declare_xq_queue_ok (t : DefaultDramatiqTopology)
    (env : DeclareEnv) (s : BrokerState) (q : String)
    (h : env .dead_letter (get_dead_letter_queue_name q) = none) :
    Broker_declare_xq_queue t env s q
      = ⟨{ s with queues := setAdd s.queues (get_dead_letter_queue_name q),
                  queues_pending := setDiscard s.queues_pending (get_dead_letter_queue_name q) },
          [.physical_declare .dead_letter (get_dead_letter_queue_name q)],
          .ok ⟨get_dead_letter_queue_name q, t.durable, t.auto_delete,
            _get_dead_letter_queue_arguments t⟩⟩ := by
  simp [Broker_declare_xq_queue, declare_dead_letter_queue, Topology_declare_queue, h]

theorem Broker_declare_queue_ok (t : DefaultDramatiqTopology)
    (env : DeclareEnv) (s : BrokerState) (q : String)
    (h : env .canonical (get_canonical_queue_name q) = none) :
    Broker_declare_queue t env s q
      = ⟨{ s with queues := setAdd s.queues (get_canonical_queue_name q),
                  queues_pending := setDiscard s.queues_pending (get_canonical_queue_name q) },
          [.physical_declare .canonical (get_canonical_queue_name q)],
          .ok ⟨get_canonical_queue_name q, t.durable, t.auto_delete,
            _get_canonical_queue_arguments t (get_canonical_queue_name q) true⟩⟩ := by
  simp [Broker_declare_queue, declare_canonical_queue, Topology_declare_queue, h]

/-- The `_ensure_queue` computation under an all-success environment, for a
non-degenerate canonical name currently in the pending set: the three
physical declares happen in the order delay, dead-letter, canonical. -/
theorem Broker_ensure_queue_full (t : DefaultDramatiqTopology)
    (env : DeclareEnv) (s : BrokerState) (n : String)
    (henv : ∀ k m, env k m = none) (hg : GoodName n)
    (hpend : n ∈ s.queues_pending) :
    Broker_ensure_queue t env s n
      = ⟨⟨setAdd (setAdd (setAdd s.queues (n ++ ".DQ")) (n ++ ".XQ")) n,
          setDiscard (setDiscard (setDiscard
            (setAdd (setAdd s.queues_pending (n ++ ".DQ")) (n ++ ".XQ"))
            (n ++ ".DQ")) (n ++ ".XQ")) n,
          s.delay_queues⟩,
        [.physical_declare .delay (n ++ ".DQ"),
         .physical_declare .dead_letter (n ++ ".XQ"),
         .physical_declare .canonical n],
        .ok ()⟩ := by
  obtain ⟨hq, hdq, hxq, _, _, _, hndq, hnxq, hdqxq⟩ := hg
  have e1 : get_delay_queue_name n = n ++ ".DQ" := hdq
  have e2 : get_dead_letter_queue_name n = n ++ ".XQ" := hxq
  have e3 : get_canonical_queue_name n = n := hq
  have m1 : (n ++ ".DQ") ∈ setAdd (setAdd s.queues_pending (n ++ ".DQ")) (n ++ ".XQ") := by
    rw [mem_setAdd, mem_setAdd]
    exact Or.inl (Or.inr rfl)
  have m2 : (n ++ ".XQ") ∈ setDiscard
      (setAdd (setAdd s.queues_pending (n ++ ".DQ")) (n ++ ".XQ")) (n ++ ".DQ") := by
    rw [mem_setDiscard, mem_setAdd]
    exact ⟨Or.inr rfl, fun h => hdqxq h.symm⟩
  have m3 : n ∈ setDiscard (setDiscard
      (setAdd (setAdd s.queues_pending (n ++ ".DQ")) (n ++ ".XQ"))
      (n ++ ".DQ")) (n ++ ".XQ") := by
    rw [mem_setDiscard, mem_setDiscard, mem_setAdd, mem_setAdd]
    exact ⟨⟨Or.inl (Or.inl hpend), hndq⟩, hnxq⟩
  rw [Broker_ensure_queue]
  simp only [get_queue_name_tuple, e1, e2, e3, ne_eq, not_true_eq_false,
    if_false, if_pos hpend, if_pos m1]
  rw [Broker_declare_dq_queue_ok t env _ n (by rw [e1]; exact henv _ _)]
  simp only [e1, if_pos m2]
  rw [Broker_declare_xq_queue_ok t env _ n (by rw [e2]; exact henv _ _)]
  simp only [e2, if_pos m3]
  rw [Broker_declare_queue_ok t env _ n (by rw [e3]; exact henv _ _)]
  simp only [e3]
  rfl

theorem Broker_declare_dq_queue_pending_preserved (t : DefaultDramatiqTopology)
    (env : DeclareEnv) (s : BrokerState) (q x : String)
    (hx : x ∈ s.queues_pending) (hne : x ≠ get_delay_queue_name q) :
    x ∈ (Broker_declare_dq_queue t env s q).state.queues_pending := by
  rw [Broker_declare_dq_queue]
  split
  · exact hx
  · simp only [mem_setDiscard]
    exact ⟨hx, hne⟩

theorem Broker_declare_xq_queue_pending_preserved (t : DefaultDramatiqTopology)
    (env : DeclareEnv) (s : BrokerState) (q x : String)
    (hx : x ∈ s.queues_pending) (hne : x ≠ get_dead_letter_queue_name q) :
    x ∈ (Broker_declare_xq_queue t env s q).state.queues_pending := by
  rw [Broker_declare_xq_queue]
  split
  · exact hx
  · simp only [mem_setDiscard]
    exact ⟨hx, hne⟩

theorem Broker_declare_queue_error_state (t : DefaultDramatiqTopology)
    (env : DeclareEnv) (s : BrokerState) (q : String) (e : PyError)
    (h : (Broker_declare_queue t env s q).result = .error e) :
    (Broker_declare_queue t env s q).state = s := by
  simp only [Broker_declare_queue] at h ⊢
  cases hd : declare_canonical_queue t (env .canonical (get_canonical_queue_name q))
      (get_canonical_queue_name q) true with
  | error e1 => simp only [hd]
  | ok q1 =>
    simp only [hd] at h
    exact Except.noConfusion h

theorem step_dq_pending (c : Prop) [Decidable c] (t : DefaultDramatiqTopology)
    (env : DeclareEnv) (s : BrokerState) (q x : String)
    (hx : x ∈ s.queues_pending) (hne : x ≠ get_delay_queue_name q) :
    x ∈ ((if c then Broker_declare_dq_queue t env s q
          else ⟨s, [], .ok default⟩) : BrokerOut QueueSpec).state.queues_pending := by
  split
  · exact Broker_declare_dq_queue_pending_preserved t env s q x hx hne
  · exact hx

theorem step_xq_pending (c : Prop) [Decidable c] (t : DefaultDramatiqTopology)
    (env : DeclareEnv) (s : BrokerState) (q x : String)
    (hx : x ∈ s.queues_pending) (hne : x ≠ get_dead_letter_queue_name q) :
    x ∈ ((if c then Broker_declare_xq_queue t env s q
          else ⟨s, [], .ok default⟩) : BrokerOut QueueSpec).state.queues_pending := by
  split
  · exact Broker_declare_xq_queue_pending_preserved t env s q x hx hne
  · exact hx

set_option maxHeartbeats 1600000 in
/-- A declare failure inside `_ensure_queue` leaves the canonical name in the
pending set (the state returned at the exception point still holds it). -/
theorem Broker_ensure_queue_error_pending (t : DefaultDramatiqTopology)
    (env : DeclareEnv) (s : BrokerState) (n : String)
    (hg : GoodName n) (hpend : n ∈ s.queues_pending) (e : PyError)
    (herr : (Broker_ensure_queue t env s n).result = .error e) :
    n ∈ (Broker_ensure_queue t env s n).state.queues_pending := by
  obtain ⟨hq, hdq, hxq, _, _, _, hndq, hnxq, hdqxq⟩ := hg
  have hdq' : n ≠ get_delay_queue_name n := by
    rw [get_delay_queue_name, hdq]; exact hndq
  have hxq' : n ≠ get_dead_letter_queue_name n := by
    rw [get_dead_letter_queue_name, hxq]; exact hnxq
  rw [Broker_ensure_queue] at herr ⊢
  simp only [get_queue_name_tuple, get_canonical_queue_name, hq, ne_eq,
    not_true_eq_false, if_false, if_pos hpend] at herr ⊢
  set p1 : List String :=
    setAdd (setAdd s.queues_pending (get_delay_queue_name n)) (get_dead_letter_queue_name n)
    with hp1
  set s1 : BrokerState := { s with queues_pending := p1 } with hs1
  have hx1 : n ∈ s1.queues_pending := by
    rw [hs1]
    simp only [hp1, mem_setAdd]
    exact Or.inl (Or.inl hpend)
  set step1 : BrokerOut QueueSpec :=
    if get_delay_queue_name n ∈ s1.queues_pending then
      Broker_declare_dq_queue t env s1 n
    else ⟨s1, [], .ok default⟩ with hstep1
  have hx2 : n ∈ step1.state.queues_pending := by
    rw [hstep1]
    exact step_dq_pending _ t env s1 n n hx1 hdq'
  cases h1 : step1.result with
  | error e1 =>
    simp only [h1] at herr ⊢
    exact hx2
  | ok q1 =>
    simp only [h1] at herr ⊢
    set step2 : BrokerOut QueueSpec :=
      if get_dead_letter_queue_name n ∈ step1.state.queues_pending then
        Broker_declare_xq_queue t env step1.state n
      else ⟨step1.state, [], .ok default⟩ with hstep2
    have hx3 : n ∈ step2.state.queues_pending := by
      rw [hstep2]
      exact step_xq_pending _ t env step1.state n n hx2 hxq'
    cases h2 : step2.result with
    | error e2 =>
      simp only [h2] at herr ⊢
      exact hx3
    | ok q2 =>
      simp only [h2] at herr ⊢
      set step3 : BrokerOut QueueSpec :=
        if n ∈ step2.state.queues_pending then
          Broker_declare_queue t env step2.state n
        else ⟨step2.state, [], .ok default⟩ with hstep3
      cases h3 : step3.result with
      | error e3 =>
        simp only [h3] at herr ⊢
        rw [hstep3] at h3 ⊢
        by_cases hc : n ∈ step2.state.queues_pending
        · rw [if_pos hc] at h3 ⊢
          rw [Broker_declare_queue_error_state t env step2.state n e3 h3]
          exact hx3
        · rw [if_neg hc] at h3
          simp at h3
      | ok q3 =>
        simp only [h3] at herr
        cases herr


/- ### C2 — ensure-step declaration order -/

/-- C2 (counterexample): for the pending queue `q`, `_ensure_queue` declares
the DELAY queue first, then the dead-letter queue, then the canonical queue
— not dead-letter first as claimed. -/
theorem ensure_declare_order_counterexample :
    (Broker_ensure_queue {} (fun _ _ => none)
        ⟨["q"], ["q"], []⟩ "q").events
      = [.physical_declare .delay "q.DQ", .physical_declare .dead_letter "q.XQ",
         .physical_declare .canonical "q"] ∧
    (Broker_ensure_queue {} (fun _ _ => none)
        ⟨["q"], ["q"], []⟩ "q").events
      ≠ [.physical_declare .dead_letter "q.XQ", .physical_declare .delay "q.DQ",
         .physical_declare .canonical "q"] := by
  decide

/-- C2 (amended): for every non-degenerate canonical queue name in the
pending set, the ensure step performs the physical declarations in the
order delay queue first, then dead-letter queue, then canonical queue
(each via the retry-wrapped `_ensure` helper, whose post-retry outcome the
environment supplies); and if a declare fails, the canonical name remains
in the pending set so a later attempt retries the transition. -/
theorem ensure_declare_order_amended :
    ∀ (t : DefaultDramatiqTopology) (env : DeclareEnv) (s : BrokerState) (n : String),
      GoodName n → n ∈ s.queues_pending →
      ((∀ k m, env k m = none) →
        (Broker_ensure_queue t env s n).events
          = [.physical_declare .delay (n ++ ".DQ"),
             .physical_declare .dead_letter (n ++ ".XQ"),
             .physical_declare .canonical n] ∧
        (Broker_ensure_queue t env s n).result = .ok ()) ∧
      (∀ e, (Broker_ensure_queue t env s n).result = .error e →
        n ∈ (Broker_ensure_queue t env s n).state.queues_pending) := by
  intro t env s n hg hpend
  refine ⟨fun henv => ?_,
    fun e herr => Broker_ensure_queue_error_pending t env s n hg hpend e herr⟩
  rw [Broker_ensure_queue_full t env s n henv hg hpend]
  exact ⟨rfl, rfl⟩

/-- C2 witness: the amended order theorem and the failure-keeps-pending part
applied at the queue `q`, with an environment whose dead-letter declare
fails. -/
theorem ensure_declare_order_amended_witness :
    ((Broker_ensure_queue {} (fun _ _ => none) ⟨["q"], ["q"], []⟩ "q").events
      = [.physical_declare .delay "q.DQ", .physical_declare .dead_letter "q.XQ",
         .physical_declare .canonical "q"]) ∧
    "q" ∈ (Broker_ensure_queue {}
        (fun k _ => if k = .dead_letter then some .connectionError else none)
        ⟨["q"], ["q"], []⟩ "q").state.queues_pending := by
  constructor
  · exact ((ensure_declare_order_amended {} (fun _ _ => none) ⟨["q"], ["q"], []⟩ "q"
      (by decide) (by decide)).1 (fun _ _ => rfl)).1
  · exact (ensure_declare_order_amended {}
      (fun k _ => if k = .dead_letter then some .connectionError else none)
      ⟨["q"], ["q"], []⟩ "q" (by decide) (by decide)).2 .connectionClosed rfl

/- ### C6 — declare twice, physical declare once -/

/-- `_ensure_queue` is a no-op when none of the three physical names is
pending. -/
theorem Broker_ensure_queue_noop (t : DefaultDramatiqTopology) (env : DeclareEnv)
    (s : BrokerState) (n : String) (hq : q_name n = n)
    (hn : n ∉ s.queues_pending) (hdq : dq_name n ∉ s.queues_pending)
    (hxq : xq_name n ∉ s.queues_pending) :
    Broker_ensure_queue t env s n = ⟨s, [], .ok ()⟩ := by
  rw [Broker_ensure_queue]
  simp only [get_queue_name_tuple, get_canonical_queue_name, get_delay_queue_name,
    get_dead_letter_queue_name, hq, ne_eq, not_true_eq_false, if_false,
    if_neg hn, if_neg hdq, if_neg hxq]
  rfl

/-- `declare_queue(name, ensure=True)` on a fresh name: the notifications
fire once and the three physical queues are declared once each, in order. -/
theorem declare_queue_full (t : DefaultDramatiqTopology) (env : DeclareEnv)
    (s : BrokerState) (qn n : String) (henv : ∀ k m, env k m = none)
    (hg : GoodName n) (hqn : q_name qn = n) (hdqn : dq_name qn = n ++ ".DQ")
    (hnotin : n ∉ s.queues) :
    declare_queue t env s qn true
      = ⟨⟨setAdd (setAdd (setAdd (setAdd s.queues n) (n ++ ".DQ")) (n ++ ".XQ")) n,
          setDiscard (setDiscard (setDiscard
            (setAdd (setAdd (setAdd s.queues_pending n) (n ++ ".DQ")) (n ++ ".XQ"))
            (n ++ ".DQ")) (n ++ ".XQ")) n,
          setAdd s.delay_queues (n ++ ".DQ")⟩,
        [.emit_before_declare_queue qn, .emit_after_declare_queue qn,
         .emit_after_declare_delay_queue (n ++ ".DQ"),
         .physical_declare .delay (n ++ ".DQ"),
         .physical_declare .dead_letter (n ++ ".XQ"),
         .physical_declare .canonical n],
        .ok ()⟩ := by
  rw [declare_queue]
  simp only [get_canonical_queue_name, get_delay_queue_name, hqn, hdqn,
    if_pos hnotin, if_true]
  rw [Broker_ensure_queue_full t env _ n henv hg (by rw [mem_setAdd]; exact Or.inr rfl)]
  rfl

/-- C6: calling `declare_queue(name, ensure=True)` twice in sequence (under
an environment whose physical declares succeed) performs each physical
declaration exactly once: the first call fires the before/after
notifications once and declares the three queues, leaving the canonical
name declared and not pending; the second call returns with no events at
all — no physical declare and no notification — and an unchanged state. -/
theorem declare_queue_twice_idempotent :
    ∀ (t : DefaultDramatiqTopology) (env : DeclareEnv) (s : BrokerState) (n : String),
      (∀ k m, env k m = none) → GoodName n → n ∉ s.queues →
      (declare_queue t env s n true).result = .ok () ∧
      (declare_queue t env s n true).events
        = [.emit_before_declare_queue n, .emit_after_declare_queue n,
           .emit_after_declare_delay_queue (n ++ ".DQ"),
           .physical_declare .delay (n ++ ".DQ"),
           .physical_declare .dead_letter (n ++ ".XQ"),
           .physical_declare .canonical n] ∧
      n ∈ (declare_queue t env s n true).state.queues ∧
      n ∉ (declare_queue t env s n true).state.queues_pending ∧
      declare_queue t env (declare_queue t env s n true).state n true
        = ⟨(declare_queue t env s n true).state, [], .ok ()⟩ := by
  intro t env s n henv hg hnotin
  obtain ⟨hq, hdq, hxq, _, _, _, hndq, hnxq, hdqxq⟩ := hg
  have hfull := declare_queue_full t env s n n henv
    ⟨hq, hdq, hxq, by assumption, by assumption, by assumption, hndq, hnxq, hdqxq⟩
    hq hdq hnotin
  rw [hfull]
  refine ⟨rfl, rfl, ?_, ?_, ?_⟩
  · simp only [mem_setAdd]
    exact Or.inr trivial
  · simp only [mem_setDiscard]
    intro h
    exact h.2 rfl
  · rw [declare_queue]
    have hmem : n ∈ setAdd (setAdd (setAdd (setAdd s.queues n) (n ++ ".DQ")) (n ++ ".XQ")) n := by
      simp only [mem_setAdd]
      exact Or.inr trivial
    have hn' : n ∉ setDiscard (setDiscard (setDiscard
        (setAdd (setAdd (setAdd s.queues_pending n) (n ++ ".DQ")) (n ++ ".XQ"))
        (n ++ ".DQ")) (n ++ ".XQ")) n := by
      simp only [mem_setDiscard]
      intro h
      exact h.2 rfl
    have hdq' : dq_name n ∉ setDiscard (setDiscard (setDiscard
        (setAdd (setAdd (setAdd s.queues_pending n) (n ++ ".DQ")) (n ++ ".XQ"))
        (n ++ ".DQ")) (n ++ ".XQ")) n := by
      rw [hdq]
      simp only [mem_setDiscard]
      intro h
      exact h.1.1.2 rfl
    have hxq' : xq_name n ∉ setDiscard (setDiscard (setDiscard
        (setAdd (setAdd (setAdd s.queues_pending n) (n ++ ".DQ")) (n ++ ".XQ"))
        (n ++ ".DQ")) (n ++ ".XQ")) n := by
      rw [hxq]
      simp only [mem_setDiscard]
      intro h
      exact h.1.2 rfl
    simp only [get_canonical_queue_name, hq, if_neg (not_not_intro hmem)]
    rw [Broker_ensure_queue_noop t env _ n hq hn' hdq' hxq']
    rfl

/-- C6 witness: both calls evaluated at the fresh queue `q`. -/
theorem declare_queue_twice_idempotent_witness :
    (declare_queue {} (fun _ _ => none) ⟨[], [], []⟩ "q" true).events
      = [.emit_before_declare_queue "q", .emit_after_declare_queue "q",
         .emit_after_declare_delay_queue "q.DQ",
         .physical_declare .delay "q.DQ", .physical_declare .dead_letter "q.XQ",
         .physical_declare .canonical "q"] ∧
    declare_queue {} (fun _ _ => none)
        (declare_queue {} (fun _ _ => none) ⟨[], [], []⟩ "q" true).state "q" true
      = ⟨(declare_queue {} (fun _ _ => none) ⟨[], [], []⟩ "q" true).state, [], .ok ()⟩ := by
  have h := declare_queue_twice_idempotent {} (fun _ _ => none) ⟨[], [], []⟩ "q"
    (fun _ _ => rfl) (by decide) (by decide)
  exact ⟨h.2.1, h.2.2.2.2⟩

/- ### C1 — max-delay validation -/

theorem toPyError_not_delay (e : TransportError) :
    e.toPyError.isDelayTooLong = false := by
  cases e <;> rfl

theorem ensureReclassify_isDelay (e : PyError) :
    (ensureReclassify e).isDelayTooLong = e.isDelayTooLong := by
  cases e <;> rfl

theorem Topology_declare_queue_error_not_delay (t : DefaultDramatiqTopology)
    (o : DeclareOutcome) (qn : String) (qa : RabbitMQQueueArguments) (flag : Bool)
    (e : PyError) (h : Topology_declare_queue t o qn qa flag = .error e) :
    e.isDelayTooLong = false := by
  cases o with
  | none =>
    simp only [Topology_declare_queue] at h
    exact Except.noConfusion h
  | some te =>
    cases te with
    | preconditionFailed errmsg =>
      simp only [Topology_declare_queue] at h
      split at h
      · cases Except.error.inj h
        rfl
      · split at h
        · cases Except.error.inj h
          rfl
        · exact Except.noConfusion h
    | notFound =>
      simp only [Topology_declare_queue] at h
      cases Except.error.inj h
      rfl
    | channelError c =>
      simp only [Topology_declare_queue] at h
      cases Except.error.inj h
      rfl
    | connectionError =>
      simp only [Topology_declare_queue] at h
      cases Except.error.inj h
      rfl
    | other tag =>
      simp only [Topology_declare_queue] at h
      cases Except.error.inj h
      rfl

theorem Broker_declare_dq_queue_error_not_delay (t : DefaultDramatiqTopology)
    (env : DeclareEnv) (s : BrokerState) (q : String) (e : PyError)
    (h : (Broker_declare_dq_queue t env s q).result = .error e) :
    e.isDelayTooLong = false := by
  rw [Broker_declare_dq_queue] at h
  cases hd : declare_delay_queue t (env .delay (get_delay_queue_name q))
      (get_delay_queue_name q) true with
  | error e1 =>
    simp only [hd] at h
    cases h
    exact Topology_declare_queue_error_not_delay _ _ _ _ _ _ hd
  | ok q1 =>
    simp only [hd] at h
    exact Except.noConfusion h

theorem Broker_declare_xq_queue_error_not_delay (t : DefaultDramatiqTopology)
    (env : DeclareEnv) (s : BrokerState) (q : String) (e : PyError)
    (h : (Broker_declare_xq_queue t env s q).result = .error e) :
    e.isDelayTooLong = false := by
  rw [Broker_declare_xq_queue] at h
  cases hd : declare_dead_letter_queue t (env .dead_letter (get_dead_letter_queue_name q))
      (get_dead_letter_queue_name q) true with
  | error e1 =>
    simp only [hd] at h
    cases h
    exact Topology_declare_queue_error_not_delay _ _ _ _ _ _ hd
  | ok q1 =>
    simp only [hd] at h
    exact Except.noConfusion h

theorem Broker_declare_queue_error_not_delay (t : DefaultDramatiqTopology)
    (env : DeclareEnv) (s : BrokerState) (q : String) (e : PyError)
    (h : (Broker_declare_queue t env s q).result = .error e) :
    e.isDelayTooLong = false := by
  rw [Broker_declare_queue] at h
  cases hd : declare_canonical_queue t (env .canonical (get_canonical_queue_name q))
      (get_canonical_queue_name q) true with
  | error e1 =>
    simp only [hd] at h
    cases h
    exact Topology_declare_queue_error_not_delay _ _ _ _ _ _ hd
  | ok q1 =>
    simp only [hd] at h
    exact Except.noConfusion h

theorem step_dq_error_not_delay (c : Prop) [Decidable c] (t : DefaultDramatiqTopology)
    (env : DeclareEnv) (s : BrokerState) (q : String) (e : PyError)
    (h : ((if c then Broker_declare_dq_queue t env s q
        else ⟨s, [], .ok default⟩) : BrokerOut QueueSpec).result = .error e) :
    e.isDelayTooLong = false := by
  split at h
  · exact Broker_declare_dq_queue_error_not_delay t env s q e h
  · exact Except.noConfusion h

theorem step_xq_error_not_delay (c : Prop) [Decidable c] (t : DefaultDramatiqTopology)
    (env : DeclareEnv) (s : BrokerState) (q : String) (e : PyError)
    (h : ((if c then Broker_declare_xq_queue t env s q
        else ⟨s, [], .ok default⟩) : BrokerOut QueueSpec).result = .error e) :
    e.isDelayTooLong = false := by
  split at h
  · exact Broker_declare_xq_queue_error_not_delay t env s q e h
  · exact Except.noConfusion h

theorem step_can_error_not_delay (c : Prop) [Decidable c] (t : DefaultDramatiqTopology)
    (env : DeclareEnv) (s : BrokerState) (q : String) (e : PyError)
    (h : ((if c then Broker_declare_queue t env s q
        else ⟨s, [], .ok default⟩) : BrokerOut QueueSpec).result = .error e) :
    e.isDelayTooLong = false := by
  split at h
  · exact Broker_declare_queue_error_not_delay t env s q e h
  · exact Except.noConfusion h

theorem Broker_ensure_queue_error_not_delay (t : DefaultDramatiqTopology)
    (env : DeclareEnv) (s : BrokerState) (n : String) (e : PyError)
    (h : (Broker_ensure_queue t env s n).result = .error e) :
    e.isDelayTooLong = false := by
  rw [Broker_ensure_queue] at h
  simp only [get_queue_name_tuple] at h
  split at h
  · cases Except.error.inj h
    rfl
  · set p1 : List String := setAdd (setAdd s.queues_pending (get_delay_queue_name n)) (get_dead_letter_queue_name n) with hp1
    generalize (if get_canonical_queue_name n ∈ s.queues_pending then (⟨s.queues, p1, s.delay_queues⟩ : BrokerState) else s) = s1 at h
    set step1 : BrokerOut QueueSpec :=
      if get_delay_queue_name n ∈ s1.queues_pending then
        Broker_declare_dq_queue t env s1 (get_canonical_queue_name n)
      else ⟨s1, [], .ok default⟩ with hstep1
    cases h1 : step1.result with
    | error e1 =>
      simp only [h1] at h
      cases Except.error.inj h
      rw [ensureReclassify_isDelay]
      exact step_dq_error_not_delay _ t env s1 (get_canonical_queue_name n) e1 (hstep1 ▸ h1)
    | ok q1 =>
      simp only [h1] at h
      set step2 : BrokerOut QueueSpec :=
        if get_dead_letter_queue_name n ∈ step1.state.queues_pending then
          Broker_declare_xq_queue t env step1.state (get_canonical_queue_name n)
        else ⟨step1.state, [], .ok default⟩ with hstep2
      cases h2 : step2.result with
      | error e2 =>
        simp only [h2] at h
        cases Except.error.inj h
        rw [ensureReclassify_isDelay]
        exact step_xq_error_not_delay _ t env step1.state (get_canonical_queue_name n) e2 (hstep2 ▸ h2)
      | ok q2 =>
        simp only [h2] at h
        set step3 : BrokerOut QueueSpec :=
          if get_canonical_queue_name n ∈ step2.state.queues_pending then
            Broker_declare_queue t env step2.state (get_canonical_queue_name n)
          else ⟨step2.state, [], .ok default⟩ with hstep3
        cases h3 : step3.result with
        | error e3 =>
          simp only [h3] at h
          cases Except.error.inj h
          rw [ensureReclassify_isDelay]
          exact step_can_error_not_delay _ t env step2.state (get_canonical_queue_name n) e3 (hstep3 ▸ h3)
        | ok q3 =>
          simp only [h3] at h
          exact Except.noConfusion h

theorem declare_queue_error_not_delay (t : DefaultDramatiqTopology)
    (env : DeclareEnv) (s : BrokerState) (q : String) (e : PyError)
    (h : (declare_queue t env s q true).result = .error e) :
    e.isDelayTooLong = false := by
  rw [declare_queue] at h
  split at h
  all_goals exact Broker_ensure_queue_error_not_delay t env _ (get_canonical_queue_name q) e h



theorem step_dq_result_ok (c : Prop) [Decidable c] (t : DefaultDramatiqTopology)
    (env : DeclareEnv) (s : BrokerState) (q : String)
    (h : env .delay (get_delay_queue_name q) = none) :
    ∃ v, ((if c then Broker_declare_dq_queue t env s q
        else ⟨s, [], .ok default⟩) : BrokerOut QueueSpec).result = .ok v := by
  split
  · rw [Broker_declare_dq_queue_ok t env s q h]
    exact ⟨_, rfl⟩
  · exact ⟨default, rfl⟩

theorem step_xq_result_ok (c : Prop) [Decidable c] (t : DefaultDramatiqTopology)
    (env : DeclareEnv) (s : BrokerState) (q : String)
    (h : env .dead_letter (get_dead_letter_queue_name q) = none) :
    ∃ v, ((if c then Broker_declare_xq_queue t env s q
        else ⟨s, [], .ok default⟩) : BrokerOut QueueSpec).result = .ok v := by
  split
  · rw [Broker_declare_xq_queue_ok t env s q h]
    exact ⟨_, rfl⟩
  · exact ⟨default, rfl⟩

theorem step_can_result_ok (c : Prop) [Decidable c] (t : DefaultDramatiqTopology)
    (env : DeclareEnv) (s : BrokerState) (q : String)
    (h : env .canonical (get_canonical_queue_name q) = none) :
    ∃ v, ((if c then Broker_declare_queue t env s q
        else ⟨s, [], .ok default⟩) : BrokerOut QueueSpec).result = .ok v := by
  split
  · rw [Broker_declare_queue_ok t env s q h]
    exact ⟨_, rfl⟩
  · exact ⟨default, rfl⟩

/-- Under an all-success environment, `_ensure_queue` on a canonical-stable
name always returns without an exception, whatever the pending sets hold. -/
theorem Broker_ensure_queue_result_ok (t : DefaultDramatiqTopology)
    (env : DeclareEnv) (s : BrokerState) (n : String)
    (henv : ∀ k m, env k m = none) (hqn : get_canonical_queue_name n = n) :
    (Broker_ensure_queue t env s n).result = .ok () := by
  rw [Broker_ensure_queue]
  simp only [get_queue_name_tuple, hqn, ne_eq, not_true_eq_false, if_false]
  generalize (if n ∈ s.queues_pending then (⟨s.queues, setAdd (setAdd s.queues_pending (get_delay_queue_name n)) (get_dead_letter_queue_name n), s.delay_queues⟩ : BrokerState) else s) = s1
  set step1 : BrokerOut QueueSpec :=
    if get_delay_queue_name n ∈ s1.queues_pending then
      Broker_declare_dq_queue t env s1 n
    else ⟨s1, [], .ok default⟩ with hstep1
  obtain ⟨v1, h1⟩ := step_dq_result_ok
    (get_delay_queue_name n ∈ s1.queues_pending) t env s1 n (henv _ _)
  rw [← hstep1] at h1
  simp only [h1]
  set step2 : BrokerOut QueueSpec :=
    if get_dead_letter_queue_name n ∈ step1.state.queues_pending then
      Broker_declare_xq_queue t env step1.state n
    else ⟨step1.state, [], .ok default⟩ with hstep2
  obtain ⟨v2, h2⟩ := step_xq_result_ok
    (get_dead_letter_queue_name n ∈ step1.state.queues_pending) t env step1.state n (henv _ _)
  rw [← hstep2] at h2
  simp only [h2]
  set step3 : BrokerOut QueueSpec :=
    if n ∈ step2.state.queues_pending then
      Broker_declare_queue t env step2.state n
    else ⟨step2.state, [], .ok default⟩ with hstep3
  obtain ⟨v3, h3⟩ := step_can_result_ok
    (n ∈ step2.state.queues_pending) t env step2.state n (by rw [hqn]; exact henv _ _)
  rw [← hstep3] at h3
  simp only [h3]

/-- Under an all-success environment, `declare_queue(_, ensure=True)` on a
canonical-stable name returns without an exception. -/
theorem declare_queue_result_ok (t : DefaultDramatiqTopology)
    (env : DeclareEnv) (s : BrokerState) (q : String)
    (henv : ∀ k m, env k m = none)
    (hq2 : get_canonical_queue_name (get_canonical_queue_name q)
      = get_canonical_queue_name q) :
    (declare_queue t env s q true).result = .ok () := by
  rw [declare_queue]
  split
  all_goals
    exact Broker_ensure_queue_result_ok t env _ (get_canonical_queue_name q) henv hq2

theorem Broker_declare_dq_queue_events (t : DefaultDramatiqTopology)
    (env : DeclareEnv) (s : BrokerState) (q : String) :
    (Broker_declare_dq_queue t env s q).events
      = [.physical_declare .delay (get_delay_queue_name q)] := by
  rw [Broker_declare_dq_queue]
  split <;> rfl

theorem Broker_declare_xq_queue_events (t : DefaultDramatiqTopology)
    (env : DeclareEnv) (s : BrokerState) (q : String) :
    (Broker_declare_xq_queue t env s q).events
      = [.physical_declare .dead_letter (get_dead_letter_queue_name q)] := by
  rw [Broker_declare_xq_queue]
  split <;> rfl

theorem Broker_declare_queue_events (t : DefaultDramatiqTopology)
    (env : DeclareEnv) (s : BrokerState) (q : String) :
    (Broker_declare_queue t env s q).events
      = [.physical_declare .canonical (get_canonical_queue_name q)] := by
  rw [Broker_declare_queue]
  split <;> rfl

theorem countPublish_step_dq (c : Prop) [Decidable c] (t : DefaultDramatiqTopology)
    (env : DeclareEnv) (s : BrokerState) (q : String) :
    countPublish ((if c then Broker_declare_dq_queue t env s q
      else ⟨s, [], .ok default⟩) : BrokerOut QueueSpec).events = 0 := by
  split
  · rw [Broker_declare_dq_queue_events]
    rfl
  · rfl

theorem countPublish_step_xq (c : Prop) [Decidable c] (t : DefaultDramatiqTopology)
    (env : DeclareEnv) (s : BrokerState) (q : String) :
    countPublish ((if c then Broker_declare_xq_queue t env s q
      else ⟨s, [], .ok default⟩) : BrokerOut QueueSpec).events = 0 := by
  split
  · rw [Broker_declare_xq_queue_events]
    rfl
  · rfl

theorem countPublish_step_can (c : Prop) [Decidable c] (t : DefaultDramatiqTopology)
    (env : DeclareEnv) (s : BrokerState) (q : String) :
    countPublish ((if c then Broker_declare_queue t env s q
      else ⟨s, [], .ok default⟩) : BrokerOut QueueSpec).events = 0 := by
  split
  · rw [Broker_declare_queue_events]
    rfl
  · rfl

/-- `_ensure_queue` never records a publish attempt. -/
theorem countPublish_ensure (t : DefaultDramatiqTopology) (env : DeclareEnv)
    (s : BrokerState) (n : String) :
    countPublish (Broker_ensure_queue t env s n).events = 0 := by
  rw [Broker_ensure_queue]
  simp only [get_queue_name_tuple]
  split
  · rfl
  · generalize (if get_canonical_queue_name n ∈ s.queues_pending then (⟨s.queues, setAdd (setAdd s.queues_pending (get_delay_queue_name n)) (get_dead_letter_queue_name n), s.delay_queues⟩ : BrokerState) else s) = s1
    set step1 : BrokerOut QueueSpec :=
      if get_delay_queue_name n ∈ s1.queues_pending then
        Broker_declare_dq_queue t env s1 (get_canonical_queue_name n)
      else ⟨s1, [], .ok default⟩ with hstep1
    have c1 : countPublish step1.events = 0 := by
      rw [hstep1]
      exact countPublish_step_dq _ t env s1 (get_canonical_queue_name n)
    cases h1 : step1.result with
    | error e1 =>
      simp only [h1]
      exact c1
    | ok q1 =>
      simp only [h1]
      set step2 : BrokerOut QueueSpec :=
        if get_dead_letter_queue_name n ∈ step1.state.queues_pending then
          Broker_declare_xq_queue t env step1.state (get_canonical_queue_name n)
        else ⟨step1.state, [], .ok default⟩ with hstep2
      have c2 : countPublish step2.events = 0 := by
        rw [hstep2]
        exact countPublish_step_xq _ t env step1.state (get_canonical_queue_name n)
      cases h2 : step2.result with
      | error e2 =>
        simp only [h2]
        show countPublish (step1.events ++ step2.events) = 0
        rw [countPublish_append, c1, c2]
      | ok q2 =>
        simp only [h2]
        set step3 : BrokerOut QueueSpec :=
          if get_canonical_queue_name n ∈ step2.state.queues_pending then
            Broker_declare_queue t env step2.state (get_canonical_queue_name n)
          else ⟨step2.state, [], .ok default⟩ with hstep3
        have c3 : countPublish step3.events = 0 := by
          rw [hstep3]
          exact countPublish_step_can _ t env step2.state (get_canonical_queue_name n)
        cases h3 : step3.result with
        | error e3 =>
          simp only [h3]
          show countPublish (step1.events ++ step2.events ++ step3.events) = 0
          rw [countPublish_append, countPublish_append, c1, c2, c3]
        | ok q3 =>
          simp only [h3]
          show countPublish (step1.events ++ step2.events ++ step3.events) = 0
          rw [countPublish_append, countPublish_append, c1, c2, c3]

/-- `declare_queue` never records a publish attempt. -/
theorem countPublish_declare_queue (t : DefaultDramatiqTopology) (env : DeclareEnv)
    (s : BrokerState) (q : String) (ensure : Bool) :
    countPublish (declare_queue t env s q ensure).events = 0 := by
  rw [declare_queue]
  split
  rename_i s' events' heq
  have hev : events' = [BEvent.emit_before_declare_queue q,
      BEvent.emit_after_declare_queue q,
      BEvent.emit_after_declare_delay_queue (get_delay_queue_name q)]
      ∨ events' = [] := by
    split at heq
    · injection heq with hs he
      exact Or.inl he.symm
    · injection heq with hs he
      exact Or.inr he.symm
  have hcount : countPublish events' = 0 := by
    rcases hev with h | h <;> rw [h] <;> rfl
  cases ensure with
  | true =>
    show countPublish (events'
      ++ (Broker_ensure_queue t env s' (get_canonical_queue_name q)).events) = 0
    rw [countPublish_append, hcount, countPublish_ensure]
  | false =>
    exact hcount

/-- Errors escaping the publish phase of `enqueue` are never
`DelayTooLongError`. -/
theorem enqueue_publish_error_not_delay (t : DefaultDramatiqTopology)
    (env : EnqueueEnv) (s : BrokerState) (events0 : List BEvent)
    (qn : String) (m : Message) (delay : Option Int) (e : PyError)
    (h : (enqueue_publish t env s events0 qn m delay).result = .error e) :
    e.isDelayTooLong = false := by
  rw [enqueue_publish] at h
  simp only [Broker_enqueue_message] at h
  cases hp0 : env.publish 0 with
  | none =>
    simp only [hp0] at h
    exact Except.noConfusion h
  | some e0 =>
    simp only [hp0] at h
    cases e0 with
    | channelError c =>
      simp only [TransportError.toPyError] at h
      by_cases hc : c = 312
      · subst hc
        rw [if_neg (fun hne => hne rfl)] at h
        cases hr1 : (declare_queue t env.declare
            { s with queues := setDiscard s.queues (get_canonical_queue_name qn) }
            qn true).result with
        | error e2 =>
          simp only [hr1] at h
          cases Except.error.inj h
          exact declare_queue_error_not_delay t env.declare _ qn _ hr1
        | ok u =>
          simp only [hr1] at h
          cases hp1 : env.publish 1 with
          | none =>
            simp only [hp1] at h
            exact Except.noConfusion h
          | some e1 =>
            simp only [hp1] at h
            cases Except.error.inj h
            exact toPyError_not_delay _
      · rw [if_pos hc] at h
        cases Except.error.inj h
        rfl
    | preconditionFailed errmsg =>
      simp only [TransportError.toPyError] at h
      cases Except.error.inj h
      rfl
    | notFound =>
      simp only [TransportError.toPyError] at h
      cases Except.error.inj h
      rfl
    | connectionError =>
      simp only [TransportError.toPyError] at h
      cases Except.error.inj h
      rfl
    | other tag =>
      simp only [TransportError.toPyError] at h
      cases Except.error.inj h
      rfl



/-- C1: with a `max_delay_time` cap configured, `enqueue(message, delay=D)`
with `D` exceeding the cap (in ms) raises `DelayTooLongError` carrying
`(D, cap_ms, message.queue_name)` and performs no publish (once the
preceding ensure step itself succeeds, which requires a canonical-stable
queue name); and in every run whatsoever, a raised `DelayTooLongError` can
only come from that validation — so with `D ≤ cap`, no cap, or no delay,
`enqueue` never raises `DelayTooLongError`. -/
theorem enqueue_max_delay_validation :
    (∀ (t : DefaultDramatiqTopology) (env : EnqueueEnv) (now : Int)
        (s : BrokerState) (message : Message) (cap : Timedelta) (d : Int),
      t.max_delay_time = some cap →
      (∀ k m, env.declare k m = none) →
      get_canonical_queue_name (get_canonical_queue_name message.queue_name)
        = get_canonical_queue_name message.queue_name →
      d > cap.toMillis →
      (enqueue t env now s message (some d)).result
        = .error (.delayTooLong d cap.toMillis message.queue_name) ∧
      countPublish (enqueue t env now s message (some d)).events = 0) ∧
    (∀ (t : DefaultDramatiqTopology) (env : EnqueueEnv) (now : Int)
        (s : BrokerState) (message : Message) (delay : Option Int) (e : PyError),
      (enqueue t env now s message delay).result = .error e →
      e.isDelayTooLong = true →
      ∃ (d : Int) (cap : Timedelta), delay = some d ∧ t.max_delay_time = some cap ∧
        d > cap.toMillis ∧ e = .delayTooLong d cap.toMillis message.queue_name) := by
  constructor
  · intro t env now s message cap d hcap henv hq2 hd
    have h0 : (declare_queue t env.declare s message.queue_name true).result = .ok () :=
      declare_queue_result_ok t env.declare s message.queue_name henv hq2
    rw [enqueue]
    simp only [h0, hcap, if_pos hd]
    exact ⟨trivial, countPublish_declare_queue t env.declare s message.queue_name true⟩
  · intro t env now s message delay e herr hdel
    rw [enqueue.eq_def] at herr
    cases hr0 : (declare_queue t env.declare s message.queue_name true).result with
    | error e0 =>
      simp only [hr0] at herr
      cases Except.error.inj herr
      rw [declare_queue_error_not_delay t env.declare s message.queue_name _ hr0] at hdel
      exact Bool.noConfusion hdel
    | ok u =>
      simp only [hr0] at herr
      cases delay with
      | none =>
        rw [enqueue_publish_error_not_delay t env _ _ _ _ none e herr] at hdel
        exact Bool.noConfusion hdel
      | some d =>
        cases hmd : t.max_delay_time with
        | none =>
          simp only [hmd] at herr
          rw [enqueue_publish_error_not_delay t env _ _ _ _ (some d) e herr] at hdel
          exact Bool.noConfusion hdel
        | some cap =>
          simp only [hmd] at herr
          by_cases hlt : d > cap.toMillis
          · rw [if_pos hlt] at herr
            cases Except.error.inj herr
            exact ⟨d, cap, rfl, rfl, hlt, rfl⟩
          · rw [if_neg hlt] at herr
            rw [enqueue_publish_error_not_delay t env _ _ _ _ (some d) e herr] at hdel
            exact Bool.noConfusion hdel

/-- C1 witness: with a 1000 ms cap, `delay=2000` raises
`DelayTooLongError(2000, 1000, "q")` with no publish attempt, and the
inversion applied to that very run recovers the cap violation. -/
theorem enqueue_max_delay_validation_witness :
    ((enqueue { max_delay_time := some ⟨1000⟩ } ⟨fun _ _ => none, fun _ => none⟩
        5 ⟨[], [], []⟩ ⟨"q", "m1", none, none⟩ (some 2000)).result
      = .error (.delayTooLong 2000 1000 "q") ∧
     countPublish (enqueue { max_delay_time := some ⟨1000⟩ }
        ⟨fun _ _ => none, fun _ => none⟩
        5 ⟨[], [], []⟩ ⟨"q", "m1", none, none⟩ (some 2000)).events = 0) ∧
    (∃ (d : Int) (cap : Timedelta), (some 2000 : Option Int) = some d ∧
      (some ⟨1000⟩ : Option Timedelta) = some cap ∧ d > cap.toMillis ∧
      (PyError.delayTooLong 2000 1000 "q") = .delayTooLong d cap.toMillis "q") := by
  constructor
  · exact enqueue_max_delay_validation.1 { max_delay_time := some ⟨1000⟩ }
      ⟨fun _ _ => none, fun _ => none⟩ 5 ⟨[], [], []⟩ ⟨"q", "m1", none, none⟩
      ⟨1000⟩ 2000 rfl (fun _ _ => rfl) (by decide) (by decide)
  · exact enqueue_max_delay_validation.2 { max_delay_time := some ⟨1000⟩ }
      ⟨fun _ _ => none, fun _ => none⟩ 5 ⟨[], [], []⟩ ⟨"q", "m1", none, none⟩
      (some 2000) (.delayTooLong 2000 1000 "q") rfl rfl



/- ### C3 — no-route redeclare and single retry -/

/-- The publish phase when the first publish raises the no-route channel
error (reply code 312): the canonical name is discarded and redeclared
(ensured) — it ends up back in `queues` and its physical declare is in the
trace — and the publish is retried exactly once more; the retry outcome is
final. -/
theorem enqueue_publish_no_route (t : DefaultDramatiqTopology) (env : EnqueueEnv)
    (s : BrokerState) (events0 : List BEvent) (qn n : String) (m : Message)
    (delay : Option Int)
    (henvD : ∀ k m2, env.declare k m2 = none) (hg : GoodName n)
    (hqn : q_name qn = n) (hdqn : dq_name qn = n ++ ".DQ")
    (h312 : env.publish 0 = some (.channelError 312)) :
    countPublish (enqueue_publish t env s events0 qn m delay).events
      = countPublish events0 + 2 ∧
    BEvent.physical_declare .canonical n
      ∈ (enqueue_publish t env s events0 qn m delay).events ∧
    n ∈ (enqueue_publish t env s events0 qn m delay).state.queues ∧
    (env.publish 1 = none →
      (enqueue_publish t env s events0 qn m delay).result = .ok m) ∧
    (∀ e1, env.publish 1 = some e1 →
      (enqueue_publish t env s events0 qn m delay).result = .error e1.toPyError) := by
  have hnotin : n ∉ setDiscard s.queues n := by
    rw [mem_setDiscard]
    intro h
    exact h.2 rfl
  have hfull := declare_queue_full t env.declare
    ⟨setDiscard s.queues n, s.queues_pending, s.delay_queues⟩ qn n henvD hg hqn hdqn hnotin
  rw [enqueue_publish]
  simp only [Broker_enqueue_message, h312, TransportError.toPyError,
    get_canonical_queue_name, hqn, ne_eq, not_true_eq_false, if_false, hfull]
  refine ⟨?_, ?_, ?_, ?_, ?_⟩
  · cases hp1 : env.publish 1 with
    | none =>
      simp only [hp1, countPublish_append, countPublish]
      simp [isPublishAttempt]
    | some e1 =>
      simp only [hp1, countPublish_append, countPublish]
      simp [isPublishAttempt]
  · cases hp1 : env.publish 1 with
    | none =>
      simp only [hp1]
      simp [List.mem_append]
    | some e1 =>
      simp only [hp1]
      simp [List.mem_append]
  · cases hp1 : env.publish 1 with
    | none =>
      simp only [hp1, mem_setAdd]
      exact Or.inr trivial
    | some e1 =>
      simp only [hp1, mem_setAdd]
      exact Or.inr trivial
  · intro hp1
    simp only [hp1]
  · intro e1 hp1
    simp only [hp1]

/-- The publish phase when the first publish raises a channel error whose
reply code is not 312: the error propagates unchanged with no retry. -/
theorem enqueue_publish_channel_other (t : DefaultDramatiqTopology)
    (env : EnqueueEnv) (s : BrokerState) (events0 : List BEvent)
    (qn : String) (m : Message) (delay : Option Int) (c : Int)
    (hc : env.publish 0 = some (.channelError c)) (hne : c ≠ 312) :
    (enqueue_publish t env s events0 qn m delay).result = .error (.channelError c) ∧
    countPublish (enqueue_publish t env s events0 qn m delay).events
      = countPublish events0 + 1 := by
  rw [enqueue_publish]
  simp only [Broker_enqueue_message, hc, TransportError.toPyError, if_pos hne]
  refine ⟨trivial, ?_⟩
  simp only [countPublish_append, countPublish]
  simp [isPublishAttempt]



/-- C3: during `enqueue`, a publish failing with channel error 312
(no-route) causes the broker to discard the canonical name from the
declared set, redeclare and ensure the queue (its physical canonical
declare reappears in the trace and the name is back in `queues`), and retry
the publish exactly once more (two publish attempts in total); the single
retry's failure propagates unchanged, and a channel error with any other
reply code propagates unchanged after exactly one publish attempt.
Hypotheses: the declare environment succeeds, the queue name is
non-degenerate, and any configured delay respects the cap (so the publish
phase is reached). -/
theorem enqueue_no_route_retry :
    ∀ (t : DefaultDramatiqTopology) (env : EnqueueEnv) (now : Int)
      (s : BrokerState) (message : Message) (delay : Option Int),
      (∀ k m2, env.declare k m2 = none) →
      GoodName message.queue_name →
      (delay = none ∨ ∃ d, delay = some d ∧
        ∀ cap, t.max_delay_time = some cap → ¬(d > cap.toMillis)) →
      (env.publish 0 = some (.channelError 312) →
        countPublish (enqueue t env now s message delay).events = 2 ∧
        BEvent.physical_declare .canonical message.queue_name
          ∈ (enqueue t env now s message delay).events ∧
        message.queue_name ∈ (enqueue t env now s message delay).state.queues ∧
        (env.publish 1 = none →
          ∃ m2, (enqueue t env now s message delay).result = .ok m2) ∧
        (∀ e1, env.publish 1 = some e1 →
          (enqueue t env now s message delay).result = .error e1.toPyError)) ∧
      (∀ c : Int, c ≠ 312 → env.publish 0 = some (.channelError c) →
        (enqueue t env now s message delay).result = .error (.channelError c) ∧
        countPublish (enqueue t env now s message delay).events = 1) := by
  intro t env now s message delay henvD hg hvalid
  have hq1 : get_canonical_queue_name message.queue_name = message.queue_name := hg.1
  have h0 : (declare_queue t env.declare s message.queue_name true).result = .ok () :=
    declare_queue_result_ok t env.declare s message.queue_name henvD
      (by rw [hq1]; exact hq1)
  have hr0 : countPublish (declare_queue t env.declare s message.queue_name true).events = 0 :=
    countPublish_declare_queue t env.declare s message.queue_name true
  rcases hvalid with rfl | ⟨d, rfl, hcap⟩
  all_goals rw [enqueue]
  all_goals simp only [h0]
  · constructor
    · intro h312
      have hcore := enqueue_publish_no_route t env
        (declare_queue t env.declare s message.queue_name true).state
        (declare_queue t env.declare s message.queue_name true).events
        message.queue_name message.queue_name message none henvD hg hg.1 hg.2.1 h312
      refine ⟨?_, hcore.2.1, hcore.2.2.1,
        fun hp1 => ⟨message, hcore.2.2.2.1 hp1⟩, hcore.2.2.2.2⟩
      have hc1 := hcore.1
      rw [hr0] at hc1
      simpa using hc1
    · intro c hne hc
      have hcore := enqueue_publish_channel_other t env
        (declare_queue t env.declare s message.queue_name true).state
        (declare_queue t env.declare s message.queue_name true).events
        message.queue_name message none c hc hne
      refine ⟨hcore.1, ?_⟩
      have hc2 := hcore.2
      rw [hr0] at hc2
      simpa using hc2
  · have hqn : q_name (get_delay_queue_name message.queue_name) = message.queue_name := by
      rw [get_delay_queue_name, hg.2.1]
      exact hg.2.2.2.1
    have hdqn : dq_name (get_delay_queue_name message.queue_name)
        = message.queue_name ++ ".DQ" := by
      rw [get_delay_queue_name, hg.2.1]
      exact hg.2.2.2.2.1
    cases hmd : t.max_delay_time with
    | none =>
      simp only [hmd]
      constructor
      · intro h312
        have hcore := enqueue_publish_no_route t env
          (declare_queue t env.declare s message.queue_name true).state
          (declare_queue t env.declare s message.queue_name true).events
          (get_delay_queue_name message.queue_name) message.queue_name
          { message with queue_name := get_delay_queue_name message.queue_name,
                         eta := some (now + d) }
          (some d) henvD hg hqn hdqn h312
        refine ⟨?_, hcore.2.1, hcore.2.2.1,
          fun hp1 => ⟨_, hcore.2.2.2.1 hp1⟩, hcore.2.2.2.2⟩
        have hc1 := hcore.1
        rw [hr0] at hc1
        simpa using hc1
      · intro c hne hc
        have hcore := enqueue_publish_channel_other t env
          (declare_queue t env.declare s message.queue_name true).state
          (declare_queue t env.declare s message.queue_name true).events
          (get_delay_queue_name message.queue_name)
          { message with queue_name := get_delay_queue_name message.queue_name,
                         eta := some (now + d) }
          (some d) c hc hne
        refine ⟨hcore.1, ?_⟩
        have hc2 := hcore.2
        rw [hr0] at hc2
        simpa using hc2
    | some cap =>
      simp only [hmd, if_neg (hcap cap hmd)]
      constructor
      · intro h312
        have hcore := enqueue_publish_no_route t env
          (declare_queue t env.declare s message.queue_name true).state
          (declare_queue t env.declare s message.queue_name true).events
          (get_delay_queue_name message.queue_name) message.queue_name
          { message with queue_name := get_delay_queue_name message.queue_name,
                         eta := some (now + d) }
          (some d) henvD hg hqn hdqn h312
        refine ⟨?_, hcore.2.1, hcore.2.2.1,
          fun hp1 => ⟨_, hcore.2.2.2.1 hp1⟩, hcore.2.2.2.2⟩
        have hc1 := hcore.1
        rw [hr0] at hc1
        simpa using hc1
      · intro c hne hc
        have hcore := enqueue_publish_channel_other t env
          (declare_queue t env.declare s message.queue_name true).state
          (declare_queue t env.declare s message.queue_name true).events
          (get_delay_queue_name message.queue_name)
          { message with queue_name := get_delay_queue_name message.queue_name,
                         eta := some (now + d) }
          (some d) c hc hne
        refine ⟨hcore.1, ?_⟩
        have hc2 := hcore.2
        rw [hr0] at hc2
        simpa using hc2



/-- C3 witness: a broker hit by no-route on the first publish with a
successful retry (two attempts, redeclare visible, message delivered), and
one hit by channel error 404 (single attempt, error propagated). -/
theorem enqueue_no_route_retry_witness :
    (countPublish (enqueue {}
        ⟨fun _ _ => none, fun a => if a = 0 then some (.channelError 312) else none⟩
        5 ⟨[], [], []⟩ ⟨"q", "m1", none, none⟩ none).events = 2 ∧
      BEvent.physical_declare .canonical "q"
        ∈ (enqueue {}
        ⟨fun _ _ => none, fun a => if a = 0 then some (.channelError 312) else none⟩
        5 ⟨[], [], []⟩ ⟨"q", "m1", none, none⟩ none).events ∧
      "q" ∈ (enqueue {}
        ⟨fun _ _ => none, fun a => if a = 0 then some (.channelError 312) else none⟩
        5 ⟨[], [], []⟩ ⟨"q", "m1", none, none⟩ none).state.queues ∧
      ∃ m2, (enqueue {}
        ⟨fun _ _ => none, fun a => if a = 0 then some (.channelError 312) else none⟩
        5 ⟨[], [], []⟩ ⟨"q", "m1", none, none⟩ none).result = .ok m2) ∧
    ((enqueue {} ⟨fun _ _ => none, fun _ => some (.channelError 404)⟩
        5 ⟨[], [], []⟩ ⟨"q", "m1", none, none⟩ none).result
      = .error (.channelError 404) ∧
     countPublish (enqueue {} ⟨fun _ _ => none, fun _ => some (.channelError 404)⟩
        5 ⟨[], [], []⟩ ⟨"q", "m1", none, none⟩ none).events = 1) := by
  constructor
  · have h := (enqueue_no_route_retry {}
      ⟨fun _ _ => none, fun a => if a = 0 then some (.channelError 312) else none⟩
      5 ⟨[], [], []⟩ ⟨"q", "m1", none, none⟩ none (fun _ _ => rfl) (by decide)
      (Or.inl rfl)).1 rfl
    exact ⟨h.1, h.2.1, h.2.2.1, h.2.2.2.1 rfl⟩
  · exact (enqueue_no_route_retry {}
      ⟨fun _ _ => none, fun _ => some (.channelError 404)⟩
      5 ⟨[], [], []⟩ ⟨"q", "m1", none, none⟩ none (fun _ _ => rfl) (by decide)
      (Or.inl rfl)).2 404 (by decide) rfl


end DKB
